import Mathlib

/-!
Shallow embedding of the StoryCrafter actions core (src/src/actions/index.ts).

The source is a set of Astro actions over four tables (Stories, StoryActs,
StoryChapters, StoryScenes).  Each action is translated as a pure function

    Op : Option User → Input → … → DB → DB × Except Err Output

where the `Option User` models the request context (`context.locals.user`),
the extra arguments model the ambient effects the handler consumes
(`new Date()` becomes a `now : Nat` parameter, `crypto.randomUUID()` becomes
a `newId : String` parameter) and the returned `DB` is the datastore after
the call.  Every error path returns the input datastore unchanged, exactly
as a thrown `ActionError` aborts the handler before the corresponding
`db.insert / db.update / db.delete` statement runs.

Zod input validation (`z.object(...).refine(...)`) runs before the handler
in `defineAction`; it is translated as a `...Check` function consulted first
by each operation, producing a `badRequest` error (astro uses the
`BAD_REQUEST` code for schema failures, the error kind the spec calls
`ValidationError`).
-/

namespace StoryCrafter

/-- Caller identity, as exposed by `context.locals.user`. -/
structure User where
  id : String
  deriving Repr, DecidableEq

/-- Row of the `Stories` table. -/
structure Story where
  id : String
  userId : String
  title : String
  logline : Option String
  genre : Option String
  targetAudience : Option String
  status : Option String
  notes : Option String
  createdAt : Nat
  updatedAt : Nat
  deriving Repr, DecidableEq

/-- Row of the `StoryActs` table (note: no `updatedAt` column). -/
structure Act where
  id : String
  storyId : String
  orderIndex : Int
  title : Option String
  summary : Option String
  createdAt : Nat
  deriving Repr, DecidableEq

/-- Row of the `StoryChapters` table. -/
structure Chapter where
  id : String
  storyId : String
  actId : Option String
  orderIndex : Int
  title : Option String
  povCharacter : Option String
  summary : Option String
  createdAt : Nat
  updatedAt : Nat
  deriving Repr, DecidableEq

/-- Row of the `StoryScenes` table. -/
structure Scene where
  id : String
  storyId : String
  chapterId : Option String
  orderIndex : Int
  setting : Option String
  goal : Option String
  conflict : Option String
  outcome : Option String
  content : Option String
  createdAt : Nat
  updatedAt : Nat
  deriving Repr, DecidableEq

/-- The whole datastore: the four tables, each a list of rows in table order. -/
structure DB where
  stories : List Story
  acts : List Act
  chapters : List Chapter
  scenes : List Scene
  deriving Repr, DecidableEq

/-- Error codes of `ActionError` used by the source (`UNAUTHORIZED`,
`NOT_FOUND`, and `BAD_REQUEST` for zod validation failures — the spec's
`Unauthorized` / `NotFound` / `ValidationError`). -/
inductive ErrCode where
  | unauthorized
  | notFound
  | badRequest
  deriving Repr, DecidableEq

/-- An `ActionError`: a code plus a human-readable message. -/
structure Err where
  code : ErrCode
  message : String
  deriving Repr, DecidableEq

def unauthorizedErr : Err :=
  ⟨.unauthorized, "You must be signed in to perform this action."⟩

def storyNotFoundErr : Err := ⟨.notFound, "Story not found."⟩

def actNotFoundErr : Err := ⟨.notFound, "Act not found."⟩

def chapterNotFoundErr : Err := ⟨.notFound, "Chapter not found."⟩

def sceneNotFoundErr : Err := ⟨.notFound, "Scene not found."⟩

/-- Zod default message for a failed `z.string().min(1)` check. -/
def minLenErr : Err :=
  ⟨.badRequest, "String must contain at least 1 character(s)"⟩

/-- Message of the `.refine` rejecting an update payload with no fields. -/
def noFieldsErr : Err :=
  ⟨.badRequest, "At least one field must be provided to update."⟩

/-- Decidable error test on `Except Err`. -/
def isErr : Except Err α → Bool
  | .error _ => true
  | .ok _ => false

/-- Payload of a list operation: the rows plus `total`. -/
structure ListResult (α : Type) where
  items : List α
  total : Nat
  deriving Repr, DecidableEq

/-- JavaScript truthiness of an optional string input field
(`if (input.actId)`): defined and non-empty. -/
def truthy : Option String → Bool
  | some s => s ≠ ""
  | none => false

/-- Spread-update of an optional column:
`...(input.f !== undefined ? \x7b f: input.f \x7d : \x7b\x7d)`. -/
def setOpt (newVal old : Option String) : Option String :=
  match newVal with
  | some v => some v
  | none => old

/-- The `requireUser` helper: the caller from the context, or `UNAUTHORIZED`. -/
def requireUser (ctx : Option User) : Except Err User :=
  match ctx with
  | none => .error unauthorizedErr
  | some u => .ok u

/-- The `getOwnedStory` helper: select the story by id and owner,
`NOT_FOUND` when no row matches. -/
def getOwnedStory (db : DB) (storyId userId : String) : Except Err Story :=
  match (db.stories.filter fun s => s.id == storyId && s.userId == userId).head? with
  | none => .error storyNotFoundErr
  | some s => .ok s

/-- The `getOwnedAct` helper: resolve the story first, then the act by id
filtered on storyId. -/
def getOwnedAct (db : DB) (actId storyId userId : String) : Except Err Act :=
  match getOwnedStory db storyId userId with
  | .error e => .error e
  | .ok _ =>
    match (db.acts.filter fun a => a.id == actId && a.storyId == storyId).head? with
    | none => .error actNotFoundErr
    | some a => .ok a

/-- The `getOwnedChapter` helper. -/
def getOwnedChapter (db : DB) (chapterId storyId userId : String) : Except Err Chapter :=
  match getOwnedStory db storyId userId with
  | .error e => .error e
  | .ok _ =>
    match (db.chapters.filter fun c => c.id == chapterId && c.storyId == storyId).head? with
    | none => .error chapterNotFoundErr
    | some c => .ok c

/-- The `getOwnedScene` helper. -/
def getOwnedScene (db : DB) (sceneId storyId userId : String) : Except Err Scene :=
  match getOwnedStory db storyId userId with
  | .error e => .error e
  | .ok _ =>
    match (db.scenes.filter fun s => s.id == sceneId && s.storyId == storyId).head? with
    | none => .error sceneNotFoundErr
    | some s => .ok s

/-- Input of `createStory`. -/
structure CreateStoryInput where
  title : String
  logline : Option String
  genre : Option String
  targetAudience : Option String
  status : Option String
  notes : Option String
  deriving Repr, DecidableEq

/-- Zod schema of `createStory`: `title: z.string().min(1)`. -/
def createStoryCheck (inp : CreateStoryInput) : Option Err :=
  if inp.title == "" then some minLenErr else none

/-- The row inserted by `createStory`. -/
def newStoryRow (u : User) (inp : CreateStoryInput) (now : Nat) (newId : String) : Story :=
  { id := newId
    userId := u.id
    title := inp.title
    logline := inp.logline
    genre := inp.genre
    targetAudience := inp.targetAudience
    status := inp.status
    notes := inp.notes
    createdAt := now
    updatedAt := now }

/-- The `createStory` action. -/
def createStory (ctx : Option User) (inp : CreateStoryInput)
    (now : Nat) (newId : String) (db : DB) : DB × Except Err Story :=
  match createStoryCheck inp with
  | some e => (db, .error e)
  | none =>
    match requireUser ctx with
    | .error e => (db, .error e)
    | .ok u =>
      let story : Story := newStoryRow u inp now newId
      ({ db with stories := db.stories ++ [story] }, .ok story)

/-- Input of `updateStory`. -/
structure UpdateStoryInput where
  id : String
  title : Option String
  logline : Option String
  genre : Option String
  targetAudience : Option String
  status : Option String
  notes : Option String
  deriving Repr, DecidableEq

/-- Zod schema of `updateStory`: `id` and (if present) `title` non-empty,
and the `.refine` that at least one mutable field is provided. -/
def updateStoryCheck (inp : UpdateStoryInput) : Option Err :=
  if inp.id == "" then some minLenErr
  else if (match inp.title with | some t => t == "" | none => false) then some minLenErr
  else if inp.title.isNone && inp.logline.isNone && inp.genre.isNone &&
      inp.targetAudience.isNone && inp.status.isNone && inp.notes.isNone then
    some noFieldsErr
  else none

/-- The partial-update `set` clause of `updateStory` applied to one row. -/
def applyStoryUpdate (inp : UpdateStoryInput) (now : Nat) (s : Story) : Story :=
  { s with
    title := inp.title.getD s.title
    logline := setOpt inp.logline s.logline
    genre := setOpt inp.genre s.genre
    targetAudience := setOpt inp.targetAudience s.targetAudience
    status := setOpt inp.status s.status
    notes := setOpt inp.notes s.notes
    updatedAt := now }

/-- The `updateStory` action.  The datastore update is filtered on the id
alone (`.where(eq(Stories.id, input.id))`); `.returning()` yields the
updated rows, of which the handler keeps the first. -/
def updateStory (ctx : Option User) (inp : UpdateStoryInput)
    (now : Nat) (db : DB) : DB × Except Err (Option Story) :=
  match updateStoryCheck inp with
  | some e => (db, .error e)
  | none =>
    match requireUser ctx with
    | .error e => (db, .error e)
    | .ok u =>
      match getOwnedStory db inp.id u.id with
      | .error e => (db, .error e)
      | .ok _ =>
        let stories := db.stories.map fun s =>
          if s.id == inp.id then applyStoryUpdate inp now s else s
        (({ db with stories := stories } : DB),
          .ok (stories.filter fun s => s.id == inp.id).head?)

/-- The `listStories` action: the caller's stories. -/
def listStories (ctx : Option User) (db : DB) :
    DB × Except Err (ListResult Story) :=
  match requireUser ctx with
  | .error e => (db, .error e)
  | .ok u =>
    let stories := db.stories.filter fun s => s.userId == u.id
    (db, .ok ⟨stories, stories.length⟩)

/-- Input of `createStoryAct`. -/
structure CreateStoryActInput where
  storyId : String
  orderIndex : Option Int
  title : Option String
  summary : Option String
  deriving Repr, DecidableEq

/-- Zod schema of `createStoryAct`: `storyId: z.string().min(1)`. -/
def createStoryActCheck (inp : CreateStoryActInput) : Option Err :=
  if inp.storyId == "" then some minLenErr else none

/-- The row inserted by `createStoryAct`: `orderIndex` defaults to 1 when
omitted (`input.orderIndex ?? 1`). -/
def newActRow (inp : CreateStoryActInput) (now : Nat) (newId : String) : Act :=
  { id := newId
    storyId := inp.storyId
    orderIndex := inp.orderIndex.getD 1
    title := inp.title
    summary := inp.summary
    createdAt := now }

/-- The `createStoryAct` action. -/
def createStoryAct (ctx : Option User) (inp : CreateStoryActInput)
    (now : Nat) (newId : String) (db : DB) : DB × Except Err Act :=
  match createStoryActCheck inp with
  | some e => (db, .error e)
  | none =>
    match requireUser ctx with
    | .error e => (db, .error e)
    | .ok u =>
      match getOwnedStory db inp.storyId u.id with
      | .error e => (db, .error e)
      | .ok _ =>
        let act : Act := newActRow inp now newId
        ({ db with acts := db.acts ++ [act] }, .ok act)

/-- Input of `updateStoryAct`. -/
structure UpdateStoryActInput where
  id : String
  storyId : String
  orderIndex : Option Int
  title : Option String
  summary : Option String
  deriving Repr, DecidableEq

/-- Zod schema of `updateStoryAct`: non-empty ids plus the at-least-one-field
refinement. -/
def updateStoryActCheck (inp : UpdateStoryActInput) : Option Err :=
  if inp.id == "" then some minLenErr
  else if inp.storyId == "" then some minLenErr
  else if inp.orderIndex.isNone && inp.title.isNone && inp.summary.isNone then
    some noFieldsErr
  else none

/-- The partial-update `set` clause of `updateStoryAct` (no `updatedAt`
column exists on acts). -/
def applyActUpdate (inp : UpdateStoryActInput) (a : Act) : Act :=
  { a with
    orderIndex := inp.orderIndex.getD a.orderIndex
    title := setOpt inp.title a.title
    summary := setOpt inp.summary a.summary }

/-- The `updateStoryAct` action. -/
def updateStoryAct (ctx : Option User) (inp : UpdateStoryActInput)
    (db : DB) : DB × Except Err (Option Act) :=
  match updateStoryActCheck inp with
  | some e => (db, .error e)
  | none =>
    match requireUser ctx with
    | .error e => (db, .error e)
    | .ok u =>
      match getOwnedAct db inp.id inp.storyId u.id with
      | .error e => (db, .error e)
      | .ok _ =>
        let acts := db.acts.map fun a =>
          if a.id == inp.id then applyActUpdate inp a else a
        (({ db with acts := acts } : DB),
          .ok (acts.filter fun a => a.id == inp.id).head?)

/-- Input of `deleteStoryAct` / `deleteStoryChapter` / `deleteStoryScene`. -/
structure DeleteInput where
  id : String
  storyId : String
  deriving Repr, DecidableEq

/-- Zod schema of the delete actions: both ids non-empty. -/
def deleteCheck (inp : DeleteInput) : Option Err :=
  if inp.id == "" then some minLenErr
  else if inp.storyId == "" then some minLenErr
  else none

/-- The `deleteStoryAct` action: deletes `StoryActs` rows whose id matches,
and nothing else. -/
def deleteStoryAct (ctx : Option User) (inp : DeleteInput)
    (db : DB) : DB × Except Err Unit :=
  match deleteCheck inp with
  | some e => (db, .error e)
  | none =>
    match requireUser ctx with
    | .error e => (db, .error e)
    | .ok u =>
      match getOwnedAct db inp.id inp.storyId u.id with
      | .error e => (db, .error e)
      | .ok _ =>
        (({ db with acts := db.acts.filter fun a => a.id != inp.id } : DB), .ok ())

/-- Input of `listStoryActs`. -/
structure ListStoryActsInput where
  storyId : String
  deriving Repr, DecidableEq

/-- Zod schema of `listStoryActs`. -/
def listStoryActsCheck (inp : ListStoryActsInput) : Option Err :=
  if inp.storyId == "" then some minLenErr else none

/-- The `listStoryActs` action. -/
def listStoryActs (ctx : Option User) (inp : ListStoryActsInput)
    (db : DB) : DB × Except Err (ListResult Act) :=
  match listStoryActsCheck inp with
  | some e => (db, .error e)
  | none =>
    match requireUser ctx with
    | .error e => (db, .error e)
    | .ok u =>
      match getOwnedStory db inp.storyId u.id with
      | .error e => (db, .error e)
      | .ok _ =>
        let acts := db.acts.filter fun a => a.storyId == inp.storyId
        (db, .ok ⟨acts, acts.length⟩)

/-- Input of `createStoryChapter`. -/
structure CreateStoryChapterInput where
  storyId : String
  actId : Option String
  orderIndex : Option Int
  title : Option String
  povCharacter : Option String
  summary : Option String
  deriving Repr, DecidableEq

/-- Zod schema of `createStoryChapter`. -/
def createStoryChapterCheck (inp : CreateStoryChapterInput) : Option Err :=
  if inp.storyId == "" then some minLenErr else none

/-- The row inserted by `createStoryChapter`: `actId` is stored as
`input.actId ?? null` (an empty string is kept), `orderIndex` defaults
to 1. -/
def newChapterRow (inp : CreateStoryChapterInput) (now : Nat) (newId : String) : Chapter :=
  { id := newId
    storyId := inp.storyId
    actId := inp.actId
    orderIndex := inp.orderIndex.getD 1
    title := inp.title
    povCharacter := inp.povCharacter
    summary := inp.summary
    createdAt := now
    updatedAt := now }

/-- The `createStoryChapter` action.  Faithful to the source: the act
ownership check is guarded by JavaScript truthiness (`if (input.actId)`),
so an empty-string `actId` skips the check, while the inserted value is
`input.actId ?? null`, which keeps an empty string. -/
def createStoryChapter (ctx : Option User) (inp : CreateStoryChapterInput)
    (now : Nat) (newId : String) (db : DB) : DB × Except Err Chapter :=
  match createStoryChapterCheck inp with
  | some e => (db, .error e)
  | none =>
    match requireUser ctx with
    | .error e => (db, .error e)
    | .ok u =>
      match getOwnedStory db inp.storyId u.id with
      | .error e => (db, .error e)
      | .ok _ =>
        match (if truthy inp.actId then
                 (getOwnedAct db (inp.actId.getD "") inp.storyId u.id).map fun _ => ()
               else .ok ()) with
        | .error e => (db, .error e)
        | .ok _ =>
          let chapter : Chapter := newChapterRow inp now newId
          ({ db with chapters := db.chapters ++ [chapter] }, .ok chapter)

/-- Input of `updateStoryChapter`. -/
structure UpdateStoryChapterInput where
  id : String
  storyId : String
  actId : Option String
  orderIndex : Option Int
  title : Option String
  povCharacter : Option String
  summary : Option String
  deriving Repr, DecidableEq

/-- Zod schema of `updateStoryChapter`. -/
def updateStoryChapterCheck (inp : UpdateStoryChapterInput) : Option Err :=
  if inp.id == "" then some minLenErr
  else if inp.storyId == "" then some minLenErr
  else if inp.actId.isNone && inp.orderIndex.isNone && inp.title.isNone &&
      inp.povCharacter.isNone && inp.summary.isNone then
    some noFieldsErr
  else none

/-- The partial-update `set` clause of `updateStoryChapter`. -/
def applyChapterUpdate (inp : UpdateStoryChapterInput) (now : Nat) (c : Chapter) : Chapter :=
  { c with
    actId := setOpt inp.actId c.actId
    orderIndex := inp.orderIndex.getD c.orderIndex
    title := setOpt inp.title c.title
    povCharacter := setOpt inp.povCharacter c.povCharacter
    summary := setOpt inp.summary c.summary
    updatedAt := now }

/-- The `updateStoryChapter` action.  Here the act ownership check is
guarded by `input.actId !== undefined && input.actId !== null`, so a
provided empty-string actId is checked (and fails) rather than skipped. -/
def updateStoryChapter (ctx : Option User) (inp : UpdateStoryChapterInput)
    (now : Nat) (db : DB) : DB × Except Err (Option Chapter) :=
  match updateStoryChapterCheck inp with
  | some e => (db, .error e)
  | none =>
    match requireUser ctx with
    | .error e => (db, .error e)
    | .ok u =>
      match getOwnedChapter db inp.id inp.storyId u.id with
      | .error e => (db, .error e)
      | .ok _ =>
        match (if inp.actId.isSome then
                 (getOwnedAct db (inp.actId.getD "") inp.storyId u.id).map fun _ => ()
               else .ok ()) with
        | .error e => (db, .error e)
        | .ok _ =>
          let chapters := db.chapters.map fun c =>
            if c.id == inp.id then applyChapterUpdate inp now c else c
          (({ db with chapters := chapters } : DB),
            .ok (chapters.filter fun c => c.id == inp.id).head?)

/-- The `deleteStoryChapter` action. -/
def deleteStoryChapter (ctx : Option User) (inp : DeleteInput)
    (db : DB) : DB × Except Err Unit :=
  match deleteCheck inp with
  | some e => (db, .error e)
  | none =>
    match requireUser ctx with
    | .error e => (db, .error e)
    | .ok u =>
      match getOwnedChapter db inp.id inp.storyId u.id with
      | .error e => (db, .error e)
      | .ok _ =>
        (({ db with chapters := db.chapters.filter fun c => c.id != inp.id } : DB), .ok ())

/-- Input of `listStoryChapters`. -/
structure ListStoryChaptersInput where
  storyId : String
  actId : Option String
  deriving Repr, DecidableEq

/-- Zod schema of `listStoryChapters`. -/
def listStoryChaptersCheck (inp : ListStoryChaptersInput) : Option Err :=
  if inp.storyId == "" then some minLenErr else none

/-- The `listStoryChapters` action: scoped to the story, narrowed by actId
when the latter is truthy (both the ownership check and the filter use
JavaScript truthiness of `input.actId`). -/
def listStoryChapters (ctx : Option User) (inp : ListStoryChaptersInput)
    (db : DB) : DB × Except Err (ListResult Chapter) :=
  match listStoryChaptersCheck inp with
  | some e => (db, .error e)
  | none =>
    match requireUser ctx with
    | .error e => (db, .error e)
    | .ok u =>
      match getOwnedStory db inp.storyId u.id with
      | .error e => (db, .error e)
      | .ok _ =>
        match (if truthy inp.actId then
                 (getOwnedAct db (inp.actId.getD "") inp.storyId u.id).map fun _ => ()
               else .ok ()) with
        | .error e => (db, .error e)
        | .ok _ =>
          let chapters := db.chapters.filter fun c =>
            if truthy inp.actId then
              c.storyId == inp.storyId && c.actId == some (inp.actId.getD "")
            else
              c.storyId == inp.storyId
          (db, .ok ⟨chapters, chapters.length⟩)

/-- Input of `createStoryScene`. -/
structure CreateStorySceneInput where
  storyId : String
  chapterId : Option String
  orderIndex : Option Int
  setting : Option String
  goal : Option String
  conflict : Option String
  outcome : Option String
  content : Option String
  deriving Repr, DecidableEq

/-- Zod schema of `createStoryScene`. -/
def createStorySceneCheck (inp : CreateStorySceneInput) : Option Err :=
  if inp.storyId == "" then some minLenErr else none

/-- The row inserted by `createStoryScene`: `chapterId` is stored as
`input.chapterId ?? null`, `orderIndex` defaults to 1. -/
def newSceneRow (inp : CreateStorySceneInput) (now : Nat) (newId : String) : Scene :=
  { id := newId
    storyId := inp.storyId
    chapterId := inp.chapterId
    orderIndex := inp.orderIndex.getD 1
    setting := inp.setting
    goal := inp.goal
    conflict := inp.conflict
    outcome := inp.outcome
    content := inp.content
    createdAt := now
    updatedAt := now }

/-- The `createStoryScene` action (chapter check guarded by truthiness of
`input.chapterId`, inserted value is `input.chapterId ?? null`). -/
def createStoryScene (ctx : Option User) (inp : CreateStorySceneInput)
    (now : Nat) (newId : String) (db : DB) : DB × Except Err Scene :=
  match createStorySceneCheck inp with
  | some e => (db, .error e)
  | none =>
    match requireUser ctx with
    | .error e => (db, .error e)
    | .ok u =>
      match getOwnedStory db inp.storyId u.id with
      | .error e => (db, .error e)
      | .ok _ =>
        match (if truthy inp.chapterId then
                 (getOwnedChapter db (inp.chapterId.getD "") inp.storyId u.id).map fun _ => ()
               else .ok ()) with
        | .error e => (db, .error e)
        | .ok _ =>
          let scene : Scene := newSceneRow inp now newId
          ({ db with scenes := db.scenes ++ [scene] }, .ok scene)

/-- Input of `updateStoryScene`. -/
structure UpdateStorySceneInput where
  id : String
  storyId : String
  chapterId : Option String
  orderIndex : Option Int
  setting : Option String
  goal : Option String
  conflict : Option String
  outcome : Option String
  content : Option String
  deriving Repr, DecidableEq

/-- Zod schema of `updateStoryScene`. -/
def updateStorySceneCheck (inp : UpdateStorySceneInput) : Option Err :=
  if inp.id == "" then some minLenErr
  else if inp.storyId == "" then some minLenErr
  else if inp.chapterId.isNone && inp.orderIndex.isNone && inp.setting.isNone &&
      inp.goal.isNone && inp.conflict.isNone && inp.outcome.isNone &&
      inp.content.isNone then
    some noFieldsErr
  else none

/-- The partial-update `set` clause of `updateStoryScene`. -/
def applySceneUpdate (inp : UpdateStorySceneInput) (now : Nat) (s : Scene) : Scene :=
  { s with
    chapterId := setOpt inp.chapterId s.chapterId
    orderIndex := inp.orderIndex.getD s.orderIndex
    setting := setOpt inp.setting s.setting
    goal := setOpt inp.goal s.goal
    conflict := setOpt inp.conflict s.conflict
    outcome := setOpt inp.outcome s.outcome
    content := setOpt inp.content s.content
    updatedAt := now }

/-- The `updateStoryScene` action (chapter check guarded by
`input.chapterId !== undefined && input.chapterId !== null`). -/
def updateStoryScene (ctx : Option User) (inp : UpdateStorySceneInput)
    (now : Nat) (db : DB) : DB × Except Err (Option Scene) :=
  match updateStorySceneCheck inp with
  | some e => (db, .error e)
  | none =>
    match requireUser ctx with
    | .error e => (db, .error e)
    | .ok u =>
      match getOwnedScene db inp.id inp.storyId u.id with
      | .error e => (db, .error e)
      | .ok _ =>
        match (if inp.chapterId.isSome then
                 (getOwnedChapter db (inp.chapterId.getD "") inp.storyId u.id).map fun _ => ()
               else .ok ()) with
        | .error e => (db, .error e)
        | .ok _ =>
          let scenes := db.scenes.map fun s =>
            if s.id == inp.id then applySceneUpdate inp now s else s
          (({ db with scenes := scenes } : DB),
            .ok (scenes.filter fun s => s.id == inp.id).head?)

/-- The `deleteStoryScene` action. -/
def deleteStoryScene (ctx : Option User) (inp : DeleteInput)
    (db : DB) : DB × Except Err Unit :=
  match deleteCheck inp with
  | some e => (db, .error e)
  | none =>
    match requireUser ctx with
    | .error e => (db, .error e)
    | .ok u =>
      match getOwnedScene db inp.id inp.storyId u.id with
      | .error e => (db, .error e)
      | .ok _ =>
        (({ db with scenes := db.scenes.filter fun s => s.id != inp.id } : DB), .ok ())

/-- Input of `listStoryScenes`. -/
structure ListStoryScenesInput where
  storyId : String
  chapterId : Option String
  deriving Repr, DecidableEq

/-- Zod schema of `listStoryScenes`. -/
def listStoryScenesCheck (inp : ListStoryScenesInput) : Option Err :=
  if inp.storyId == "" then some minLenErr else none

/-- The `listStoryScenes` action. -/
def listStoryScenes (ctx : Option User) (inp : ListStoryScenesInput)
    (db : DB) : DB × Except Err (ListResult Scene) :=
  match listStoryScenesCheck inp with
  | some e => (db, .error e)
  | none =>
    match requireUser ctx with
    | .error e => (db, .error e)
    | .ok u =>
      match getOwnedStory db inp.storyId u.id with
      | .error e => (db, .error e)
      | .ok _ =>
        match (if truthy inp.chapterId then
                 (getOwnedChapter db (inp.chapterId.getD "") inp.storyId u.id).map fun _ => ()
               else .ok ()) with
        | .error e => (db, .error e)
        | .ok _ =>
          let scenes := db.scenes.filter fun s =>
            if truthy inp.chapterId then
              s.storyId == inp.storyId && s.chapterId == some (inp.chapterId.getD "")
            else
              s.storyId == inp.storyId
          (db, .ok ⟨scenes, scenes.length⟩)

/-! ### Ownership predicates and helper lemmas -/

/-- A story with the given id owned by the given user exists in the datastore. -/
def storyOwnedP (db : DB) (sid uid : String) : Prop :=
  ∃ s ∈ db.stories, s.id = sid ∧ s.userId = uid

instance (db : DB) (sid uid : String) : Decidable (storyOwnedP db sid uid) := by
  unfold storyOwnedP; infer_instance

/-- An act with the given id exists in the given story. -/
def actInStoryP (db : DB) (aid sid : String) : Prop :=
  ∃ a ∈ db.acts, a.id = aid ∧ a.storyId = sid

instance (db : DB) (aid sid : String) : Decidable (actInStoryP db aid sid) := by
  unfold actInStoryP; infer_instance

/-- A chapter with the given id exists in the given story. -/
def chapterInStoryP (db : DB) (cid sid : String) : Prop :=
  ∃ c ∈ db.chapters, c.id = cid ∧ c.storyId = sid

instance (db : DB) (cid sid : String) : Decidable (chapterInStoryP db cid sid) := by
  unfold chapterInStoryP; infer_instance

theorem requireUser_some (u : User) : requireUser (some u) = .ok u := rfl

theorem requireUser_none : requireUser none = .error unauthorizedErr := rfl

theorem getOwnedStory_not_owned {db : DB} {sid uid : String}
    (h : ¬ storyOwnedP db sid uid) :
    getOwnedStory db sid uid = .error storyNotFoundErr := by
  unfold getOwnedStory
  cases hh : (db.stories.filter fun s => s.id == sid && s.userId == uid).head? with
  | none => rfl
  | some s =>
    exfalso
    apply h
    have hmem := List.mem_of_mem_head? hh
    rw [List.mem_filter] at hmem
    exact ⟨s, hmem.1, by simpa using hmem.2⟩

theorem getOwnedStory_ok_owned {db : DB} {sid uid : String} {s : Story}
    (h : getOwnedStory db sid uid = .ok s) : storyOwnedP db sid uid := by
  unfold getOwnedStory at h
  cases hh : (db.stories.filter fun t => t.id == sid && t.userId == uid).head? with
  | none => rw [hh] at h; simp at h
  | some t =>
    have hmem := List.mem_of_mem_head? hh
    rw [List.mem_filter] at hmem
    exact ⟨t, hmem.1, by simpa using hmem.2⟩

theorem getOwnedAct_not_owned {db : DB} {aid sid uid : String}
    (h : ¬ storyOwnedP db sid uid) :
    getOwnedAct db aid sid uid = .error storyNotFoundErr := by
  unfold getOwnedAct
  rw [getOwnedStory_not_owned h]

theorem getOwnedAct_ok_owned {db : DB} {aid sid uid : String} {a : Act}
    (h : getOwnedAct db aid sid uid = .ok a) : storyOwnedP db sid uid := by
  unfold getOwnedAct at h
  cases hg : getOwnedStory db sid uid with
  | error e => rw [hg] at h; simp at h
  | ok s => exact getOwnedStory_ok_owned hg

/-- A successful act resolution returns a stored act with the requested id
in the requested story. -/
theorem getOwnedAct_ok_act {db : DB} {aid sid uid : String} {a : Act}
    (h : getOwnedAct db aid sid uid = .ok a) :
    a ∈ db.acts ∧ a.id = aid ∧ a.storyId = sid := by
  unfold getOwnedAct at h
  cases hg : getOwnedStory db sid uid with
  | error e => rw [hg] at h; simp at h
  | ok s =>
    rw [hg] at h
    cases hh : (db.acts.filter fun b => b.id == aid && b.storyId == sid).head? with
    | none => rw [hh] at h; simp at h
    | some b =>
      rw [hh] at h
      have hb : b = a := by simpa using h
      have hmem := List.mem_of_mem_head? hh
      rw [List.mem_filter] at hmem
      subst hb
      exact ⟨hmem.1, by simpa using hmem.2⟩

/-- When the story resolves but no act with the requested id lives in it,
`getOwnedAct` fails with the act-not-found error. -/
theorem getOwnedAct_absent {db : DB} {aid sid uid : String} {s : Story}
    (hs : getOwnedStory db sid uid = .ok s)
    (h : ¬ actInStoryP db aid sid) :
    getOwnedAct db aid sid uid = .error actNotFoundErr := by
  unfold getOwnedAct
  rw [hs]
  have hf : (db.acts.filter fun a => a.id == aid && a.storyId == sid) = [] := by
    rw [List.filter_eq_nil_iff]
    intro a ha
    simp only [Bool.and_eq_true, beq_iff_eq]
    exact fun hc => h ⟨a, ha, hc⟩
  rw [hf]
  rfl

theorem getOwnedChapter_not_owned {db : DB} {cid sid uid : String}
    (h : ¬ storyOwnedP db sid uid) :
    getOwnedChapter db cid sid uid = .error storyNotFoundErr := by
  unfold getOwnedChapter
  rw [getOwnedStory_not_owned h]

theorem getOwnedChapter_ok_owned {db : DB} {cid sid uid : String} {c : Chapter}
    (h : getOwnedChapter db cid sid uid = .ok c) : storyOwnedP db sid uid := by
  unfold getOwnedChapter at h
  cases hg : getOwnedStory db sid uid with
  | error e => rw [hg] at h; simp at h
  | ok s => exact getOwnedStory_ok_owned hg

theorem getOwnedChapter_ok_chapter {db : DB} {cid sid uid : String} {c : Chapter}
    (h : getOwnedChapter db cid sid uid = .ok c) :
    c ∈ db.chapters ∧ c.id = cid ∧ c.storyId = sid := by
  unfold getOwnedChapter at h
  cases hg : getOwnedStory db sid uid with
  | error e => rw [hg] at h; simp at h
  | ok s =>
    rw [hg] at h
    cases hh : (db.chapters.filter fun d => d.id == cid && d.storyId == sid).head? with
    | none => rw [hh] at h; simp at h
    | some d =>
      rw [hh] at h
      have hd : d = c := by simpa using h
      have hmem := List.mem_of_mem_head? hh
      rw [List.mem_filter] at hmem
      subst hd
      exact ⟨hmem.1, by simpa using hmem.2⟩

theorem getOwnedChapter_absent {db : DB} {cid sid uid : String} {s : Story}
    (hs : getOwnedStory db sid uid = .ok s)
    (h : ¬ chapterInStoryP db cid sid) :
    getOwnedChapter db cid sid uid = .error chapterNotFoundErr := by
  unfold getOwnedChapter
  rw [hs]
  have hf : (db.chapters.filter fun c => c.id == cid && c.storyId == sid) = [] := by
    rw [List.filter_eq_nil_iff]
    intro c hc
    simp only [Bool.and_eq_true, beq_iff_eq]
    exact fun hcc => h ⟨c, hc, hcc⟩
  rw [hf]
  rfl

theorem getOwnedScene_not_owned {db : DB} {xid sid uid : String}
    (h : ¬ storyOwnedP db sid uid) :
    getOwnedScene db xid sid uid = .error storyNotFoundErr := by
  unfold getOwnedScene
  rw [getOwnedStory_not_owned h]

theorem getOwnedScene_ok_owned {db : DB} {xid sid uid : String} {x : Scene}
    (h : getOwnedScene db xid sid uid = .ok x) : storyOwnedP db sid uid := by
  unfold getOwnedScene at h
  cases hg : getOwnedStory db sid uid with
  | error e => rw [hg] at h; simp at h
  | ok s => exact getOwnedStory_ok_owned hg

/-! ### Story-ownership gating of each descendant operation -/

theorem createStoryAct_not_owned {u : User} {inp : CreateStoryActInput}
    {now : Nat} {newId : String} {db : DB}
    (hc : createStoryActCheck inp = none)
    (h : ¬ storyOwnedP db inp.storyId u.id) :
    createStoryAct (some u) inp now newId db = (db, .error storyNotFoundErr) := by
  simp only [createStoryAct, hc, requireUser_some, getOwnedStory_not_owned h]

theorem createStoryAct_ok_owned {u : User} {inp : CreateStoryActInput}
    {now : Nat} {newId : String} {db : DB}
    (h : isErr (createStoryAct (some u) inp now newId db).2 = false) :
    storyOwnedP db inp.storyId u.id := by
  cases hc : createStoryActCheck inp with
  | some e => simp [createStoryAct, hc, isErr] at h
  | none =>
    cases hg : getOwnedStory db inp.storyId u.id with
    | error e => simp [createStoryAct, hc, hg, requireUser_some, isErr] at h
    | ok s => exact getOwnedStory_ok_owned hg

theorem updateStoryAct_not_owned {u : User} {inp : UpdateStoryActInput} {db : DB}
    (hc : updateStoryActCheck inp = none)
    (h : ¬ storyOwnedP db inp.storyId u.id) :
    updateStoryAct (some u) inp db = (db, .error storyNotFoundErr) := by
  simp only [updateStoryAct, hc, requireUser_some, getOwnedAct_not_owned h]

theorem updateStoryAct_ok_owned {u : User} {inp : UpdateStoryActInput} {db : DB}
    (h : isErr (updateStoryAct (some u) inp db).2 = false) :
    storyOwnedP db inp.storyId u.id := by
  cases hc : updateStoryActCheck inp with
  | some e => simp [updateStoryAct, hc, isErr] at h
  | none =>
    cases hg : getOwnedAct db inp.id inp.storyId u.id with
    | error e => simp [updateStoryAct, hc, hg, requireUser_some, isErr] at h
    | ok a => exact getOwnedAct_ok_owned hg

theorem deleteStoryAct_not_owned {u : User} {inp : DeleteInput} {db : DB}
    (hc : deleteCheck inp = none)
    (h : ¬ storyOwnedP db inp.storyId u.id) :
    deleteStoryAct (some u) inp db = (db, .error storyNotFoundErr) := by
  simp only [deleteStoryAct, hc, requireUser_some, getOwnedAct_not_owned h]

theorem deleteStoryAct_ok_owned {u : User} {inp : DeleteInput} {db : DB}
    (h : isErr (deleteStoryAct (some u) inp db).2 = false) :
    storyOwnedP db inp.storyId u.id := by
  cases hc : deleteCheck inp with
  | some e => simp [deleteStoryAct, hc, isErr] at h
  | none =>
    cases hg : getOwnedAct db inp.id inp.storyId u.id with
    | error e => simp [deleteStoryAct, hc, hg, requireUser_some, isErr] at h
    | ok a => exact getOwnedAct_ok_owned hg

theorem listStoryActs_not_owned {u : User} {inp : ListStoryActsInput} {db : DB}
    (hc : listStoryActsCheck inp = none)
    (h : ¬ storyOwnedP db inp.storyId u.id) :
    listStoryActs (some u) inp db = (db, .error storyNotFoundErr) := by
  simp only [listStoryActs, hc, requireUser_some, getOwnedStory_not_owned h]

theorem listStoryActs_ok_owned {u : User} {inp : ListStoryActsInput} {db : DB}
    (h : isErr (listStoryActs (some u) inp db).2 = false) :
    storyOwnedP db inp.storyId u.id := by
  cases hc : listStoryActsCheck inp with
  | some e => simp [listStoryActs, hc, isErr] at h
  | none =>
    cases hg : getOwnedStory db inp.storyId u.id with
    | error e => simp [listStoryActs, hc, hg, requireUser_some, isErr] at h
    | ok s => exact getOwnedStory_ok_owned hg

theorem createStoryChapter_not_owned {u : User} {inp : CreateStoryChapterInput}
    {now : Nat} {newId : String} {db : DB}
    (hc : createStoryChapterCheck inp = none)
    (h : ¬ storyOwnedP db inp.storyId u.id) :
    createStoryChapter (some u) inp now newId db = (db, .error storyNotFoundErr) := by
  simp only [createStoryChapter, hc, requireUser_some, getOwnedStory_not_owned h]

theorem createStoryChapter_ok_owned {u : User} {inp : CreateStoryChapterInput}
    {now : Nat} {newId : String} {db : DB}
    (h : isErr (createStoryChapter (some u) inp now newId db).2 = false) :
    storyOwnedP db inp.storyId u.id := by
  cases hc : createStoryChapterCheck inp with
  | some e => simp [createStoryChapter, hc, isErr] at h
  | none =>
    cases hg : getOwnedStory db inp.storyId u.id with
    | error e => simp [createStoryChapter, hc, hg, requireUser_some, isErr] at h
    | ok s => exact getOwnedStory_ok_owned hg

theorem updateStoryChapter_not_owned {u : User} {inp : UpdateStoryChapterInput}
    {now : Nat} {db : DB}
    (hc : updateStoryChapterCheck inp = none)
    (h : ¬ storyOwnedP db inp.storyId u.id) :
    updateStoryChapter (some u) inp now db = (db, .error storyNotFoundErr) := by
  simp only [updateStoryChapter, hc, requireUser_some, getOwnedChapter_not_owned h]

theorem updateStoryChapter_ok_owned {u : User} {inp : UpdateStoryChapterInput}
    {now : Nat} {db : DB}
    (h : isErr (updateStoryChapter (some u) inp now db).2 = false) :
    storyOwnedP db inp.storyId u.id := by
  cases hc : updateStoryChapterCheck inp with
  | some e => simp [updateStoryChapter, hc, isErr] at h
  | none =>
    cases hg : getOwnedChapter db inp.id inp.storyId u.id with
    | error e => simp [updateStoryChapter, hc, hg, requireUser_some, isErr] at h
    | ok c => exact getOwnedChapter_ok_owned hg

theorem deleteStoryChapter_not_owned {u : User} {inp : DeleteInput} {db : DB}
    (hc : deleteCheck inp = none)
    (h : ¬ storyOwnedP db inp.storyId u.id) :
    deleteStoryChapter (some u) inp db = (db, .error storyNotFoundErr) := by
  simp only [deleteStoryChapter, hc, requireUser_some, getOwnedChapter_not_owned h]

theorem deleteStoryChapter_ok_owned {u : User} {inp : DeleteInput} {db : DB}
    (h : isErr (deleteStoryChapter (some u) inp db).2 = false) :
    storyOwnedP db inp.storyId u.id := by
  cases hc : deleteCheck inp with
  | some e => simp [deleteStoryChapter, hc, isErr] at h
  | none =>
    cases hg : getOwnedChapter db inp.id inp.storyId u.id with
    | error e => simp [deleteStoryChapter, hc, hg, requireUser_some, isErr] at h
    | ok c => exact getOwnedChapter_ok_owned hg

theorem listStoryChapters_not_owned {u : User} {inp : ListStoryChaptersInput} {db : DB}
    (hc : listStoryChaptersCheck inp = none)
    (h : ¬ storyOwnedP db inp.storyId u.id) :
    listStoryChapters (some u) inp db = (db, .error storyNotFoundErr) := by
  simp only [listStoryChapters, hc, requireUser_some, getOwnedStory_not_owned h]

theorem listStoryChapters_ok_owned {u : User} {inp : ListStoryChaptersInput} {db : DB}
    (h : isErr (listStoryChapters (some u) inp db).2 = false) :
    storyOwnedP db inp.storyId u.id := by
  cases hc : listStoryChaptersCheck inp with
  | some e => simp [listStoryChapters, hc, isErr] at h
  | none =>
    cases hg : getOwnedStory db inp.storyId u.id with
    | error e => simp [listStoryChapters, hc, hg, requireUser_some, isErr] at h
    | ok s => exact getOwnedStory_ok_owned hg

theorem createStoryScene_not_owned {u : User} {inp : CreateStorySceneInput}
    {now : Nat} {newId : String} {db : DB}
    (hc : createStorySceneCheck inp = none)
    (h : ¬ storyOwnedP db inp.storyId u.id) :
    createStoryScene (some u) inp now newId db = (db, .error storyNotFoundErr) := by
  simp only [createStoryScene, hc, requireUser_some, getOwnedStory_not_owned h]

theorem createStoryScene_ok_owned {u : User} {inp : CreateStorySceneInput}
    {now : Nat} {newId : String} {db : DB}
    (h : isErr (createStoryScene (some u) inp now newId db).2 = false) :
    storyOwnedP db inp.storyId u.id := by
  cases hc : createStorySceneCheck inp with
  | some e => simp [createStoryScene, hc, isErr] at h
  | none =>
    cases hg : getOwnedStory db inp.storyId u.id with
    | error e => simp [createStoryScene, hc, hg, requireUser_some, isErr] at h
    | ok s => exact getOwnedStory_ok_owned hg

theorem updateStoryScene_not_owned {u : User} {inp : UpdateStorySceneInput}
    {now : Nat} {db : DB}
    (hc : updateStorySceneCheck inp = none)
    (h : ¬ storyOwnedP db inp.storyId u.id) :
    updateStoryScene (some u) inp now db = (db, .error storyNotFoundErr) := by
  simp only [updateStoryScene, hc, requireUser_some, getOwnedScene_not_owned h]

theorem updateStoryScene_ok_owned {u : User} {inp : UpdateStorySceneInput}
    {now : Nat} {db : DB}
    (h : isErr (updateStoryScene (some u) inp now db).2 = false) :
    storyOwnedP db inp.storyId u.id := by
  cases hc : updateStorySceneCheck inp with
  | some e => simp [updateStoryScene, hc, isErr] at h
  | none =>
    cases hg : getOwnedScene db inp.id inp.storyId u.id with
    | error e => simp [updateStoryScene, hc, hg, requireUser_some, isErr] at h
    | ok x => exact getOwnedScene_ok_owned hg

theorem deleteStoryScene_not_owned {u : User} {inp : DeleteInput} {db : DB}
    (hc : deleteCheck inp = none)
    (h : ¬ storyOwnedP db inp.storyId u.id) :
    deleteStoryScene (some u) inp db = (db, .error storyNotFoundErr) := by
  simp only [deleteStoryScene, hc, requireUser_some, getOwnedScene_not_owned h]

theorem deleteStoryScene_ok_owned {u : User} {inp : DeleteInput} {db : DB}
    (h : isErr (deleteStoryScene (some u) inp db).2 = false) :
    storyOwnedP db inp.storyId u.id := by
  cases hc : deleteCheck inp with
  | some e => simp [deleteStoryScene, hc, isErr] at h
  | none =>
    cases hg : getOwnedScene db inp.id inp.storyId u.id with
    | error e => simp [deleteStoryScene, hc, hg, requireUser_some, isErr] at h
    | ok x => exact getOwnedScene_ok_owned hg

theorem listStoryScenes_not_owned {u : User} {inp : ListStoryScenesInput} {db : DB}
    (hc : listStoryScenesCheck inp = none)
    (h : ¬ storyOwnedP db inp.storyId u.id) :
    listStoryScenes (some u) inp db = (db, .error storyNotFoundErr) := by
  simp only [listStoryScenes, hc, requireUser_some, getOwnedStory_not_owned h]

theorem listStoryScenes_ok_owned {u : User} {inp : ListStoryScenesInput} {db : DB}
    (h : isErr (listStoryScenes (some u) inp db).2 = false) :
    storyOwnedP db inp.storyId u.id := by
  cases hc : listStoryScenesCheck inp with
  | some e => simp [listStoryScenes, hc, isErr] at h
  | none =>
    cases hg : getOwnedStory db inp.storyId u.id with
    | error e => simp [listStoryScenes, hc, hg, requireUser_some, isErr] at h
    | ok s => exact getOwnedStory_ok_owned hg

/-! ### Concrete fixtures used by witnesses and counterexamples -/

/-- A story owned by user u2. -/
def wOtherStory : Story :=
  { id := "s1", userId := "u2", title := "T", logline := none, genre := none,
    targetAudience := none, status := none, notes := none,
    createdAt := 0, updatedAt := 0 }

/-- An act living in story s1. -/
def wAct : Act :=
  { id := "a1", storyId := "s1", orderIndex := 1, title := none,
    summary := none, createdAt := 0 }

/-- A datastore where story s1 belongs to u2 and contains act a1. -/
def wDB : DB := ⟨[wOtherStory], [wAct], [], []⟩

/-- C1: for every create/update/delete/list operation on an Act, Chapter or
Scene, with an authenticated caller u and an input that passes its schema
check: if no story with the declared storyId owned by u exists, the
operation fails with the story-not-found error and returns the datastore
unchanged, regardless of whether the target entity itself exists; and
conversely any non-error outcome implies a story with the declared storyId
owned by u exists. -/
theorem C1_descendant_ops_require_story_ownership (u : User) (db : DB) :
    (∀ (inp : CreateStoryActInput) (now : Nat) (newId : String),
      createStoryActCheck inp = none → ¬ storyOwnedP db inp.storyId u.id →
      createStoryAct (some u) inp now newId db = (db, .error storyNotFoundErr)) ∧
    (∀ (inp : CreateStoryActInput) (now : Nat) (newId : String),
      isErr (createStoryAct (some u) inp now newId db).2 = false →
      storyOwnedP db inp.storyId u.id) ∧
    (∀ inp : UpdateStoryActInput,
      updateStoryActCheck inp = none → ¬ storyOwnedP db inp.storyId u.id →
      updateStoryAct (some u) inp db = (db, .error storyNotFoundErr)) ∧
    (∀ inp : UpdateStoryActInput,
      isErr (updateStoryAct (some u) inp db).2 = false →
      storyOwnedP db inp.storyId u.id) ∧
    (∀ inp : DeleteInput,
      deleteCheck inp = none → ¬ storyOwnedP db inp.storyId u.id →
      deleteStoryAct (some u) inp db = (db, .error storyNotFoundErr)) ∧
    (∀ inp : DeleteInput,
      isErr (deleteStoryAct (some u) inp db).2 = false →
      storyOwnedP db inp.storyId u.id) ∧
    (∀ inp : ListStoryActsInput,
      listStoryActsCheck inp = none → ¬ storyOwnedP db inp.storyId u.id →
      listStoryActs (some u) inp db = (db, .error storyNotFoundErr)) ∧
    (∀ inp : ListStoryActsInput,
      isErr (listStoryActs (some u) inp db).2 = false →
      storyOwnedP db inp.storyId u.id) ∧
    (∀ (inp : CreateStoryChapterInput) (now : Nat) (newId : String),
      createStoryChapterCheck inp = none → ¬ storyOwnedP db inp.storyId u.id →
      createStoryChapter (some u) inp now newId db = (db, .error storyNotFoundErr)) ∧
    (∀ (inp : CreateStoryChapterInput) (now : Nat) (newId : String),
      isErr (createStoryChapter (some u) inp now newId db).2 = false →
      storyOwnedP db inp.storyId u.id) ∧
    (∀ (inp : UpdateStoryChapterInput) (now : Nat),
      updateStoryChapterCheck inp = none → ¬ storyOwnedP db inp.storyId u.id →
      updateStoryChapter (some u) inp now db = (db, .error storyNotFoundErr)) ∧
    (∀ (inp : UpdateStoryChapterInput) (now : Nat),
      isErr (updateStoryChapter (some u) inp now db).2 = false →
      storyOwnedP db inp.storyId u.id) ∧
    (∀ inp : DeleteInput,
      deleteCheck inp = none → ¬ storyOwnedP db inp.storyId u.id →
      deleteStoryChapter (some u) inp db = (db, .error storyNotFoundErr)) ∧
    (∀ inp : DeleteInput,
      isErr (deleteStoryChapter (some u) inp db).2 = false →
      storyOwnedP db inp.storyId u.id) ∧
    (∀ inp : ListStoryChaptersInput,
      listStoryChaptersCheck inp = none → ¬ storyOwnedP db inp.storyId u.id →
      listStoryChapters (some u) inp db = (db, .error storyNotFoundErr)) ∧
    (∀ inp : ListStoryChaptersInput,
      isErr (listStoryChapters (some u) inp db).2 = false →
      storyOwnedP db inp.storyId u.id) ∧
    (∀ (inp : CreateStorySceneInput) (now : Nat) (newId : String),
      createStorySceneCheck inp = none → ¬ storyOwnedP db inp.storyId u.id →
      createStoryScene (some u) inp now newId db = (db, .error storyNotFoundErr)) ∧
    (∀ (inp : CreateStorySceneInput) (now : Nat) (newId : String),
      isErr (createStoryScene (some u) inp now newId db).2 = false →
      storyOwnedP db inp.storyId u.id) ∧
    (∀ (inp : UpdateStorySceneInput) (now : Nat),
      updateStorySceneCheck inp = none → ¬ storyOwnedP db inp.storyId u.id →
      updateStoryScene (some u) inp now db = (db, .error storyNotFoundErr)) ∧
    (∀ (inp : UpdateStorySceneInput) (now : Nat),
      isErr (updateStoryScene (some u) inp now db).2 = false →
      storyOwnedP db inp.storyId u.id) ∧
    (∀ inp : DeleteInput,
      deleteCheck inp = none → ¬ storyOwnedP db inp.storyId u.id →
      deleteStoryScene (some u) inp db = (db, .error storyNotFoundErr)) ∧
    (∀ inp : DeleteInput,
      isErr (deleteStoryScene (some u) inp db).2 = false →
      storyOwnedP db inp.storyId u.id) ∧
    (∀ inp : ListStoryScenesInput,
      listStoryScenesCheck inp = none → ¬ storyOwnedP db inp.storyId u.id →
      listStoryScenes (some u) inp db = (db, .error storyNotFoundErr)) ∧
    (∀ inp : ListStoryScenesInput,
      isErr (listStoryScenes (some u) inp db).2 = false →
      storyOwnedP db inp.storyId u.id) := by
  refine ⟨fun inp now newId hc h => createStoryAct_not_owned hc h,
    fun inp now newId h => createStoryAct_ok_owned h,
    fun inp hc h => updateStoryAct_not_owned hc h,
    fun inp h => updateStoryAct_ok_owned h,
    fun inp hc h => deleteStoryAct_not_owned hc h,
    fun inp h => deleteStoryAct_ok_owned h,
    fun inp hc h => listStoryActs_not_owned hc h,
    fun inp h => listStoryActs_ok_owned h,
    fun inp now newId hc h => createStoryChapter_not_owned hc h,
    fun inp now newId h => createStoryChapter_ok_owned h,
    fun inp now hc h => updateStoryChapter_not_owned hc h,
    fun inp now h => updateStoryChapter_ok_owned h,
    fun inp hc h => deleteStoryChapter_not_owned hc h,
    fun inp h => deleteStoryChapter_ok_owned h,
    fun inp hc h => listStoryChapters_not_owned hc h,
    fun inp h => listStoryChapters_ok_owned h,
    fun inp now newId hc h => createStoryScene_not_owned hc h,
    fun inp now newId h => createStoryScene_ok_owned h,
    fun inp now hc h => updateStoryScene_not_owned hc h,
    fun inp now h => updateStoryScene_ok_owned h,
    fun inp hc h => deleteStoryScene_not_owned hc h,
    fun inp h => deleteStoryScene_ok_owned h,
    fun inp hc h => listStoryScenes_not_owned hc h,
    fun inp h => listStoryScenes_ok_owned h⟩

/-- Witness for C1: user u1 calls updateStoryAct on act a1, which exists in
story s1, but s1 is owned by u2; the call fails with the story-not-found
error and the datastore is unchanged, even though the target act exists. -/
theorem C1_witness :
    updateStoryAct (some ⟨"u1"⟩) ⟨"a1", "s1", some 2, none, none⟩ wDB =
      (wDB, .error storyNotFoundErr) :=
  (C1_descendant_ops_require_story_ownership ⟨"u1"⟩ wDB).2.2.1
    ⟨"a1", "s1", some 2, none, none⟩ (by decide) (by decide)

/-! ### Ancestor-reference consistency lemmas (chapters and scenes) -/

theorem getOwnedChapter_ok_story {db : DB} {cid sid uid : String} {c : Chapter}
    (h : getOwnedChapter db cid sid uid = .ok c) :
    ∃ s, getOwnedStory db sid uid = .ok s := by
  unfold getOwnedChapter at h
  cases hg : getOwnedStory db sid uid with
  | error e => rw [hg] at h; simp at h
  | ok s => exact ⟨s, rfl⟩

theorem getOwnedScene_ok_story {db : DB} {xid sid uid : String} {x : Scene}
    (h : getOwnedScene db xid sid uid = .ok x) :
    ∃ s, getOwnedStory db sid uid = .ok s := by
  unfold getOwnedScene at h
  cases hg : getOwnedStory db sid uid with
  | error e => rw [hg] at h; simp at h
  | ok s => exact ⟨s, rfl⟩

/-- In a chapter table with unique ids, every row of the updated table that
carries the target id is the update of the one stored row with that id. -/
theorem chapter_update_rows (inp : UpdateStoryChapterInput) (now : Nat)
    {l : List Chapter} {r : Chapter}
    (hnd : (l.map Chapter.id).Nodup) (hr : r ∈ l) (hrid : r.id = inp.id) :
    ∀ c ∈ l.map (fun c => if c.id = inp.id then applyChapterUpdate inp now c else c),
      c.id = inp.id → c = applyChapterUpdate inp now r := by
  intro c hc hcid
  obtain ⟨s, hs, rfl⟩ := List.mem_map.1 hc
  by_cases h : s.id = inp.id
  · have hsr : s = r := List.inj_on_of_nodup_map hnd hs hr (by rw [h, hrid])
    subst hsr
    simp [h]
  · rw [if_neg h] at hcid ⊢
    exact absurd hcid h

/-- A successful createStoryChapter that supplied a non-empty actId yields a
chapter holding that actId in the declared story, and the act exists in
that story in the resulting datastore. -/
theorem createStoryChapter_act_consistent {u : User} {inp : CreateStoryChapterInput}
    {now : Nat} {newId : String} {db db' : DB} {c : Chapter} {a : String}
    (hact : inp.actId = some a) (hne : a ≠ "")
    (h : createStoryChapter (some u) inp now newId db = (db', .ok c)) :
    c.actId = some a ∧ c.storyId = inp.storyId ∧ actInStoryP db' a inp.storyId := by
  cases hc : createStoryChapterCheck inp with
  | some e => simp [createStoryChapter, hc] at h
  | none =>
    cases hg : getOwnedStory db inp.storyId u.id with
    | error e => simp [createStoryChapter, hc, requireUser_some, hg] at h
    | ok s =>
      cases hga : getOwnedAct db a inp.storyId u.id with
      | error e =>
        simp [createStoryChapter, hc, requireUser_some, hg, hact, truthy, hne,
          hga, Except.map] at h
      | ok act =>
        obtain ⟨hact0, hactid, hactsid⟩ := getOwnedAct_ok_act hga
        simp [createStoryChapter, hc, requireUser_some, hg, hact, truthy, hne,
          hga, Except.map] at h
        obtain ⟨hdb, hcc⟩ := h
        subst hdb
        subst hcc
        exact ⟨by simp [newChapterRow, hact], rfl, ⟨act, hact0, hactid, hactsid⟩⟩

/-- createStoryChapter fails with the act-not-found error, before any write,
when the supplied non-empty actId has no act in the declared story (even if
an act with that id exists in a different story). -/
theorem createStoryChapter_act_absent {u : User} {inp : CreateStoryChapterInput}
    {now : Nat} {newId : String} {db : DB} {s : Story} {a : String}
    (hg : getOwnedStory db inp.storyId u.id = .ok s)
    (hc : createStoryChapterCheck inp = none)
    (hact : inp.actId = some a) (hne : a ≠ "")
    (habs : ¬ actInStoryP db a inp.storyId) :
    createStoryChapter (some u) inp now newId db = (db, .error actNotFoundErr) := by
  simp [createStoryChapter, hc, requireUser_some, hg, hact, truthy, hne,
    getOwnedAct_absent hg habs, Except.map]

/-- A successful updateStoryChapter that supplied an actId: in an id-unique
chapter table, every stored row with the target id now carries that actId
and sits in the declared story, and the act exists in that story in the
resulting datastore. -/
theorem updateStoryChapter_act_consistent {u : User} {inp : UpdateStoryChapterInput}
    {now : Nat} {db db' : DB} {r : Option Chapter} {a : String}
    (hnd : (db.chapters.map Chapter.id).Nodup)
    (hact : inp.actId = some a)
    (h : updateStoryChapter (some u) inp now db = (db', .ok r)) :
    actInStoryP db' a inp.storyId ∧
    (∀ c ∈ db'.chapters, c.id = inp.id →
      c.actId = some a ∧ c.storyId = inp.storyId) := by
  cases hc : updateStoryChapterCheck inp with
  | some e => simp [updateStoryChapter, hc] at h
  | none =>
    cases hch : getOwnedChapter db inp.id inp.storyId u.id with
    | error e => simp [updateStoryChapter, hc, requireUser_some, hch] at h
    | ok c0 =>
      cases hga : getOwnedAct db a inp.storyId u.id with
      | error e =>
        simp [updateStoryChapter, hc, requireUser_some, hch, hact, hga,
          Except.map] at h
      | ok act =>
        obtain ⟨hact0, hactid, hactsid⟩ := getOwnedAct_ok_act hga
        obtain ⟨hc0mem, hc0id, hc0sid⟩ := getOwnedChapter_ok_chapter hch
        simp [updateStoryChapter, hc, requireUser_some, hch, hact, hga,
          Except.map] at h
        obtain ⟨hdb, hr⟩ := h
        subst hdb
        constructor
        · exact ⟨act, hact0, hactid, hactsid⟩
        · intro c hcmem hcid
          have := chapter_update_rows inp now hnd hc0mem hc0id c hcmem hcid
          subst this
          constructor
          · simp [applyChapterUpdate, hact, setOpt]
          · simpa [applyChapterUpdate] using hc0sid

/-- updateStoryChapter fails with the act-not-found error, before any write,
when the supplied actId has no act in the declared story. -/
theorem updateStoryChapter_act_absent {u : User} {inp : UpdateStoryChapterInput}
    {now : Nat} {db : DB} {c0 : Chapter} {a : String}
    (hch : getOwnedChapter db inp.id inp.storyId u.id = .ok c0)
    (hc : updateStoryChapterCheck inp = none)
    (hact : inp.actId = some a)
    (habs : ¬ actInStoryP db a inp.storyId) :
    updateStoryChapter (some u) inp now db = (db, .error actNotFoundErr) := by
  obtain ⟨s, hg⟩ := getOwnedChapter_ok_story hch
  simp [updateStoryChapter, hc, requireUser_some, hch, hact,
    getOwnedAct_absent hg habs, Except.map]

/-- createStoryScene fails with the chapter-not-found error, before any
write, when the supplied non-empty chapterId has no chapter in the declared
story. -/
theorem createStoryScene_chapter_absent {u : User} {inp : CreateStorySceneInput}
    {now : Nat} {newId : String} {db : DB} {s : Story} {a : String}
    (hg : getOwnedStory db inp.storyId u.id = .ok s)
    (hc : createStorySceneCheck inp = none)
    (hch : inp.chapterId = some a) (hne : a ≠ "")
    (habs : ¬ chapterInStoryP db a inp.storyId) :
    createStoryScene (some u) inp now newId db = (db, .error chapterNotFoundErr) := by
  simp [createStoryScene, hc, requireUser_some, hg, hch, truthy, hne,
    getOwnedChapter_absent hg habs, Except.map]

/-- updateStoryScene fails with the chapter-not-found error, before any
write, when the supplied chapterId has no chapter in the declared story. -/
theorem updateStoryScene_chapter_absent {u : User} {inp : UpdateStorySceneInput}
    {now : Nat} {db : DB} {x : Scene} {a : String}
    (hsc : getOwnedScene db inp.id inp.storyId u.id = .ok x)
    (hc : updateStorySceneCheck inp = none)
    (hch : inp.chapterId = some a)
    (habs : ¬ chapterInStoryP db a inp.storyId) :
    updateStoryScene (some u) inp now db = (db, .error chapterNotFoundErr) := by
  obtain ⟨s, hg⟩ := getOwnedScene_ok_story hsc
  simp [updateStoryScene, hc, requireUser_some, hsc, hch,
    getOwnedChapter_absent hg habs, Except.map]

/-- A story owned by user u1. -/
def gStory : Story :=
  { id := "s1", userId := "u1", title := "T", logline := none, genre := none,
    targetAudience := none, status := none, notes := none,
    createdAt := 0, updatedAt := 0 }

/-- A second story, also owned by u1. -/
def ceStory2 : Story :=
  { id := "s2", userId := "u1", title := "U", logline := none, genre := none,
    targetAudience := none, status := none, notes := none,
    createdAt := 0, updatedAt := 0 }

/-- An act whose id is the empty string, living in story s2. -/
def ceEmptyAct : Act := ⟨"", "s2", 1, none, none, 0⟩

/-- A chapter of story s1 whose actId dangles (no act has id missing). -/
def ceChapter : Chapter := ⟨"c1", "s1", some "missing", 1, none, none, none, 0, 0⟩

/-- Datastore with stories s1 and s2 (both u1), the empty-id act in s2, and
the dangling-reference chapter in s1. -/
def ceDB : DB := ⟨[gStory, ceStory2], [ceEmptyAct], [ceChapter], []⟩

/-- Counterexample to C2 as stated.  In ceDB: (1) createStoryChapter on
story s1 supplying the empty-string actId — an act id that exists, but only
in story s2 — succeeds instead of failing NotFound (the truthiness guard
`if (input.actId)` skips the ownership check for the empty string while
`input.actId ?? null` still stores it), and the created chapter's actId
references no act of its story; (2) a successful updateStoryChapter that
does not supply actId leaves the chapter's dangling actId in place, so the
resulting chapter's actId is present yet references no act at all. -/
theorem C2_counterexample :
    ((createStoryChapter (some ⟨"u1"⟩) ⟨"s1", some "", none, none, none, none⟩
        5 "c2" ceDB).2 =
      .ok ⟨"c2", "s1", some "", 1, none, none, none, 5, 5⟩) ∧
    (∃ a ∈ ceDB.acts, a.id = "" ∧ a.storyId ≠ "s1") ∧
    (¬ actInStoryP ceDB "" "s1") ∧
    ((updateStoryChapter (some ⟨"u1"⟩) ⟨"c1", "s1", none, none, some "new", none, none⟩
        7 ceDB).2 =
      .ok (some ⟨"c1", "s1", some "missing", 1, some "new", none, none, 0, 7⟩)) ∧
    (¬ actInStoryP ceDB "missing" "s1") :=
  ⟨rfl, by decide, by decide, rfl, by decide⟩

/-- C2 (amended): a successful createStoryChapter that supplies a non-empty
actId, or a successful updateStoryChapter that supplies an actId (stated
for an id-unique chapter table), yields chapter rows whose actId is the
supplied one and references an Act of the chapter's own storyId; supplying
an actId (chapterId for scenes) with no matching act/chapter in the
declared story — even one that exists in a different story — fails with
NotFound before any write (empty-string ancestor ids on create are exempt:
they bypass the check, per the counterexample). -/
theorem C2_chapter_act_reference (u : User) (db : DB) :
    (∀ (inp : CreateStoryChapterInput) (now : Nat) (newId : String) (db' : DB)
        (c : Chapter) (a : String),
      inp.actId = some a → a ≠ "" →
      createStoryChapter (some u) inp now newId db = (db', .ok c) →
      c.actId = some a ∧ c.storyId = inp.storyId ∧ actInStoryP db' a inp.storyId) ∧
    (∀ (inp : UpdateStoryChapterInput) (now : Nat) (db' : DB) (r : Option Chapter)
        (a : String),
      (db.chapters.map Chapter.id).Nodup → inp.actId = some a →
      updateStoryChapter (some u) inp now db = (db', .ok r) →
      actInStoryP db' a inp.storyId ∧
      ∀ c ∈ db'.chapters, c.id = inp.id → c.actId = some a ∧ c.storyId = inp.storyId) ∧
    (∀ (inp : CreateStoryChapterInput) (now : Nat) (newId : String) (s : Story)
        (a : String),
      getOwnedStory db inp.storyId u.id = .ok s →
      createStoryChapterCheck inp = none → inp.actId = some a → a ≠ "" →
      ¬ actInStoryP db a inp.storyId →
      createStoryChapter (some u) inp now newId db = (db, .error actNotFoundErr)) ∧
    (∀ (inp : UpdateStoryChapterInput) (now : Nat) (c0 : Chapter) (a : String),
      getOwnedChapter db inp.id inp.storyId u.id = .ok c0 →
      updateStoryChapterCheck inp = none → inp.actId = some a →
      ¬ actInStoryP db a inp.storyId →
      updateStoryChapter (some u) inp now db = (db, .error actNotFoundErr)) ∧
    (∀ (inp : CreateStorySceneInput) (now : Nat) (newId : String) (s : Story)
        (a : String),
      getOwnedStory db inp.storyId u.id = .ok s →
      createStorySceneCheck inp = none → inp.chapterId = some a → a ≠ "" →
      ¬ chapterInStoryP db a inp.storyId →
      createStoryScene (some u) inp now newId db = (db, .error chapterNotFoundErr)) ∧
    (∀ (inp : UpdateStorySceneInput) (now : Nat) (x : Scene) (a : String),
      getOwnedScene db inp.id inp.storyId u.id = .ok x →
      updateStorySceneCheck inp = none → inp.chapterId = some a →
      ¬ chapterInStoryP db a inp.storyId →
      updateStoryScene (some u) inp now db = (db, .error chapterNotFoundErr)) :=
  ⟨fun _ _ _ _ _ _ hact hne h => createStoryChapter_act_consistent hact hne h,
   fun _ _ _ _ _ hnd hact h => updateStoryChapter_act_consistent hnd hact h,
   fun _ _ _ _ _ hg hc hact hne habs => createStoryChapter_act_absent hg hc hact hne habs,
   fun _ _ _ _ hch hc hact habs => updateStoryChapter_act_absent hch hc hact habs,
   fun _ _ _ _ _ hg hc hch hne habs => createStoryScene_chapter_absent hg hc hch hne habs,
   fun _ _ _ _ hsc hc hch habs => updateStoryScene_chapter_absent hsc hc hch habs⟩

/-- Witness for C2: createStoryChapter on owned story s1 supplying the
non-empty actId missing (no act of s1 has that id) fails with the
act-not-found error and leaves the datastore unchanged. -/
theorem C2_witness :
    createStoryChapter (some ⟨"u1"⟩) ⟨"s1", some "missing", none, none, none, none⟩
        5 "c9" ceDB =
      (ceDB, .error actNotFoundErr) :=
  (C2_chapter_act_reference ⟨"u1"⟩ ceDB).2.2.1
    ⟨"s1", some "missing", none, none, none, none⟩ 5 "c9" gStory "missing"
    rfl rfl rfl (by decide) (by decide)

/-! ### No-op update rejection -/

/-- C3: each of the four update operations, given an input with well-formed
(non-empty) identifier fields that sets none of the operation's mutable
fields, fails with the validation error whose message says at least one
field must be provided, returning the datastore unchanged — for every
caller context, since the zod refinement runs before the handler. -/
theorem C3_noop_update_rejected :
    (∀ (ctx : Option User) (inp : UpdateStoryInput) (now : Nat) (db : DB),
      inp.id ≠ "" → inp.title = none → inp.logline = none → inp.genre = none →
      inp.targetAudience = none → inp.status = none → inp.notes = none →
      updateStory ctx inp now db = (db, .error noFieldsErr)) ∧
    (∀ (ctx : Option User) (inp : UpdateStoryActInput) (db : DB),
      inp.id ≠ "" → inp.storyId ≠ "" → inp.orderIndex = none → inp.title = none →
      inp.summary = none →
      updateStoryAct ctx inp db = (db, .error noFieldsErr)) ∧
    (∀ (ctx : Option User) (inp : UpdateStoryChapterInput) (now : Nat) (db : DB),
      inp.id ≠ "" → inp.storyId ≠ "" → inp.actId = none → inp.orderIndex = none →
      inp.title = none → inp.povCharacter = none → inp.summary = none →
      updateStoryChapter ctx inp now db = (db, .error noFieldsErr)) ∧
    (∀ (ctx : Option User) (inp : UpdateStorySceneInput) (now : Nat) (db : DB),
      inp.id ≠ "" → inp.storyId ≠ "" → inp.chapterId = none → inp.orderIndex = none →
      inp.setting = none → inp.goal = none → inp.conflict = none → inp.outcome = none →
      inp.content = none →
      updateStoryScene ctx inp now db = (db, .error noFieldsErr)) := by
  refine ⟨?_, ?_, ?_, ?_⟩
  · intro ctx inp now db hid h1 h2 h3 h4 h5 h6
    have hc : updateStoryCheck inp = some noFieldsErr := by
      simp [updateStoryCheck, hid, h1, h2, h3, h4, h5, h6]
    simp [updateStory, hc]
  · intro ctx inp db hid hsid h1 h2 h3
    have hc : updateStoryActCheck inp = some noFieldsErr := by
      simp [updateStoryActCheck, hid, hsid, h1, h2, h3]
    simp [updateStoryAct, hc]
  · intro ctx inp now db hid hsid h1 h2 h3 h4 h5
    have hc : updateStoryChapterCheck inp = some noFieldsErr := by
      simp [updateStoryChapterCheck, hid, hsid, h1, h2, h3, h4, h5]
    simp [updateStoryChapter, hc]
  · intro ctx inp now db hid hsid h1 h2 h3 h4 h5 h6 h7
    have hc : updateStorySceneCheck inp = some noFieldsErr := by
      simp [updateStorySceneCheck, hid, hsid, h1, h2, h3, h4, h5, h6, h7]
    simp [updateStoryScene, hc]

/-- Witness for C3: updateStory on story s1 with no mutable field set fails
with the at-least-one-field validation error and does not change the
datastore. -/
theorem C3_witness :
    updateStory (some ⟨"u1"⟩) ⟨"s1", none, none, none, none, none, none⟩ 0 wDB =
      (wDB, .error noFieldsErr) :=
  C3_noop_update_rejected.1 (some ⟨"u1"⟩) ⟨"s1", none, none, none, none, none, none⟩
    0 wDB (by decide) rfl rfl rfl rfl rfl rfl

/-! ### Success-shape lemmas: what each mutating operation did when it
returned ok -/

theorem createStory_ok_shape {ctx : Option User} {inp : CreateStoryInput}
    {now : Nat} {newId : String} {db db' : DB} {st : Story}
    (h : createStory ctx inp now newId db = (db', .ok st)) :
    ∃ u, ctx = some u ∧ st = newStoryRow u inp now newId ∧
      db' = { db with stories := db.stories ++ [st] } := by
  cases hc : createStoryCheck inp with
  | some e => simp [createStory, hc] at h
  | none =>
    cases ctx with
    | none => simp [createStory, hc, requireUser_none] at h
    | some u =>
      unfold createStory at h
      rw [hc] at h
      dsimp only [requireUser] at h
      rw [Prod.mk.injEq] at h
      obtain ⟨hdb, hr⟩ := h
      rw [Except.ok.injEq] at hr
      exact ⟨u, rfl, hr.symm, by rw [← hdb, hr]⟩

theorem createStoryAct_ok_shape {ctx : Option User} {inp : CreateStoryActInput}
    {now : Nat} {newId : String} {db db' : DB} {a : Act}
    (h : createStoryAct ctx inp now newId db = (db', .ok a)) :
    a = newActRow inp now newId ∧ db' = { db with acts := db.acts ++ [a] } := by
  cases hc : createStoryActCheck inp with
  | some e => simp [createStoryAct, hc] at h
  | none =>
    cases ctx with
    | none => simp [createStoryAct, hc, requireUser_none] at h
    | some u =>
      unfold createStoryAct at h
      rw [hc] at h
      dsimp only [requireUser] at h
      cases hg : getOwnedStory db inp.storyId u.id with
      | error e => rw [hg] at h; dsimp only [] at h; simp at h
      | ok s =>
        rw [hg] at h
        dsimp only [] at h
        rw [Prod.mk.injEq] at h
        obtain ⟨hdb, hr⟩ := h
        rw [Except.ok.injEq] at hr
        exact ⟨hr.symm, by rw [← hdb, hr]⟩

theorem createStoryChapter_ok_shape {ctx : Option User} {inp : CreateStoryChapterInput}
    {now : Nat} {newId : String} {db db' : DB} {c : Chapter}
    (h : createStoryChapter ctx inp now newId db = (db', .ok c)) :
    c = newChapterRow inp now newId ∧ db' = { db with chapters := db.chapters ++ [c] } := by
  cases hc : createStoryChapterCheck inp with
  | some e => simp [createStoryChapter, hc] at h
  | none =>
    cases ctx with
    | none => simp [createStoryChapter, hc, requireUser_none] at h
    | some u =>
      unfold createStoryChapter at h
      rw [hc] at h
      dsimp only [requireUser] at h
      cases hg : getOwnedStory db inp.storyId u.id with
      | error e => rw [hg] at h; dsimp only [] at h; simp at h
      | ok s =>
        rw [hg] at h
        dsimp only [] at h
        cases hgate : (if truthy inp.actId then
            (getOwnedAct db (inp.actId.getD "") inp.storyId u.id).map fun _ => ()
          else (.ok () : Except Err Unit)) with
        | error e => rw [hgate] at h; dsimp only [] at h; simp at h
        | ok v =>
          rw [hgate] at h
          dsimp only [] at h
          rw [Prod.mk.injEq] at h
          obtain ⟨hdb, hr⟩ := h
          rw [Except.ok.injEq] at hr
          exact ⟨hr.symm, by rw [← hdb, hr]⟩

theorem createStoryScene_ok_shape {ctx : Option User} {inp : CreateStorySceneInput}
    {now : Nat} {newId : String} {db db' : DB} {x : Scene}
    (h : createStoryScene ctx inp now newId db = (db', .ok x)) :
    x = newSceneRow inp now newId ∧ db' = { db with scenes := db.scenes ++ [x] } := by
  cases hc : createStorySceneCheck inp with
  | some e => simp [createStoryScene, hc] at h
  | none =>
    cases ctx with
    | none => simp [createStoryScene, hc, requireUser_none] at h
    | some u =>
      unfold createStoryScene at h
      rw [hc] at h
      dsimp only [requireUser] at h
      cases hg : getOwnedStory db inp.storyId u.id with
      | error e => rw [hg] at h; dsimp only [] at h; simp at h
      | ok s =>
        rw [hg] at h
        dsimp only [] at h
        cases hgate : (if truthy inp.chapterId then
            (getOwnedChapter db (inp.chapterId.getD "") inp.storyId u.id).map fun _ => ()
          else (.ok () : Except Err Unit)) with
        | error e => rw [hgate] at h; dsimp only [] at h; simp at h
        | ok v =>
          rw [hgate] at h
          dsimp only [] at h
          rw [Prod.mk.injEq] at h
          obtain ⟨hdb, hr⟩ := h
          rw [Except.ok.injEq] at hr
          exact ⟨hr.symm, by rw [← hdb, hr]⟩

theorem deleteStoryAct_ok_shape {ctx : Option User} {inp : DeleteInput} {db db' : DB}
    {v : Unit} (h : deleteStoryAct ctx inp db = (db', .ok v)) :
    db' = { db with acts := db.acts.filter fun a => a.id != inp.id } := by
  cases hc : deleteCheck inp with
  | some e => simp [deleteStoryAct, hc] at h
  | none =>
    cases ctx with
    | none => simp [deleteStoryAct, hc, requireUser_none] at h
    | some u =>
      unfold deleteStoryAct at h
      rw [hc] at h
      dsimp only [requireUser] at h
      cases hg : getOwnedAct db inp.id inp.storyId u.id with
      | error e => rw [hg] at h; dsimp only [] at h; simp at h
      | ok a =>
        rw [hg] at h
        dsimp only [] at h
        rw [Prod.mk.injEq] at h
        exact h.1.symm

theorem deleteStoryChapter_ok_shape {ctx : Option User} {inp : DeleteInput} {db db' : DB}
    {v : Unit} (h : deleteStoryChapter ctx inp db = (db', .ok v)) :
    db' = { db with chapters := db.chapters.filter fun c => c.id != inp.id } := by
  cases hc : deleteCheck inp with
  | some e => simp [deleteStoryChapter, hc] at h
  | none =>
    cases ctx with
    | none => simp [deleteStoryChapter, hc, requireUser_none] at h
    | some u =>
      unfold deleteStoryChapter at h
      rw [hc] at h
      dsimp only [requireUser] at h
      cases hg : getOwnedChapter db inp.id inp.storyId u.id with
      | error e => rw [hg] at h; dsimp only [] at h; simp at h
      | ok c =>
        rw [hg] at h
        dsimp only [] at h
        rw [Prod.mk.injEq] at h
        exact h.1.symm

theorem deleteStoryScene_ok_shape {ctx : Option User} {inp : DeleteInput} {db db' : DB}
    {v : Unit} (h : deleteStoryScene ctx inp db = (db', .ok v)) :
    db' = { db with scenes := db.scenes.filter fun s => s.id != inp.id } := by
  cases hc : deleteCheck inp with
  | some e => simp [deleteStoryScene, hc] at h
  | none =>
    cases ctx with
    | none => simp [deleteStoryScene, hc, requireUser_none] at h
    | some u =>
      unfold deleteStoryScene at h
      rw [hc] at h
      dsimp only [requireUser] at h
      cases hg : getOwnedScene db inp.id inp.storyId u.id with
      | error e => rw [hg] at h; dsimp only [] at h; simp at h
      | ok x =>
        rw [hg] at h
        dsimp only [] at h
        rw [Prod.mk.injEq] at h
        exact h.1.symm

theorem updateStory_ok_shape {ctx : Option User} {inp : UpdateStoryInput}
    {now : Nat} {db db' : DB} {r : Option Story}
    (h : updateStory ctx inp now db = (db', .ok r)) :
    db' = { db with stories := db.stories.map fun s =>
        if s.id == inp.id then applyStoryUpdate inp now s else s } ∧
    r = ((db.stories.map fun s =>
        if s.id == inp.id then applyStoryUpdate inp now s else s).filter
          fun s => s.id == inp.id).head? := by
  cases hc : updateStoryCheck inp with
  | some e => simp [updateStory, hc] at h
  | none =>
    cases ctx with
    | none => simp [updateStory, hc, requireUser_none] at h
    | some u =>
      unfold updateStory at h
      rw [hc] at h
      dsimp only [requireUser] at h
      cases hg : getOwnedStory db inp.id u.id with
      | error e => rw [hg] at h; dsimp only [] at h; simp at h
      | ok s =>
        rw [hg] at h
        dsimp only [] at h
        rw [Prod.mk.injEq] at h
        obtain ⟨hdb, hr⟩ := h
        rw [Except.ok.injEq] at hr
        exact ⟨hdb.symm, hr.symm⟩

theorem updateStoryAct_ok_shape {ctx : Option User} {inp : UpdateStoryActInput}
    {db db' : DB} {r : Option Act}
    (h : updateStoryAct ctx inp db = (db', .ok r)) :
    db' = { db with acts := db.acts.map fun a =>
        if a.id == inp.id then applyActUpdate inp a else a } ∧
    r = ((db.acts.map fun a =>
        if a.id == inp.id then applyActUpdate inp a else a).filter
          fun a => a.id == inp.id).head? := by
  cases hc : updateStoryActCheck inp with
  | some e => simp [updateStoryAct, hc] at h
  | none =>
    cases ctx with
    | none => simp [updateStoryAct, hc, requireUser_none] at h
    | some u =>
      unfold updateStoryAct at h
      rw [hc] at h
      dsimp only [requireUser] at h
      cases hg : getOwnedAct db inp.id inp.storyId u.id with
      | error e => rw [hg] at h; dsimp only [] at h; simp at h
      | ok a =>
        rw [hg] at h
        dsimp only [] at h
        rw [Prod.mk.injEq] at h
        obtain ⟨hdb, hr⟩ := h
        rw [Except.ok.injEq] at hr
        exact ⟨hdb.symm, hr.symm⟩

theorem updateStoryChapter_ok_shape {ctx : Option User} {inp : UpdateStoryChapterInput}
    {now : Nat} {db db' : DB} {r : Option Chapter}
    (h : updateStoryChapter ctx inp now db = (db', .ok r)) :
    db' = { db with chapters := db.chapters.map fun c =>
        if c.id == inp.id then applyChapterUpdate inp now c else c } ∧
    r = ((db.chapters.map fun c =>
        if c.id == inp.id then applyChapterUpdate inp now c else c).filter
          fun c => c.id == inp.id).head? := by
  cases hc : updateStoryChapterCheck inp with
  | some e => simp [updateStoryChapter, hc] at h
  | none =>
    cases ctx with
    | none => simp [updateStoryChapter, hc, requireUser_none] at h
    | some u =>
      unfold updateStoryChapter at h
      rw [hc] at h
      dsimp only [requireUser] at h
      cases hg : getOwnedChapter db inp.id inp.storyId u.id with
      | error e => rw [hg] at h; dsimp only [] at h; simp at h
      | ok c0 =>
        rw [hg] at h
        dsimp only [] at h
        cases hgate : (if inp.actId.isSome then
            (getOwnedAct db (inp.actId.getD "") inp.storyId u.id).map fun _ => ()
          else (.ok () : Except Err Unit)) with
        | error e => rw [hgate] at h; dsimp only [] at h; simp at h
        | ok v =>
          rw [hgate] at h
          dsimp only [] at h
          rw [Prod.mk.injEq] at h
          obtain ⟨hdb, hr⟩ := h
          rw [Except.ok.injEq] at hr
          exact ⟨hdb.symm, hr.symm⟩

theorem updateStoryScene_ok_shape {ctx : Option User} {inp : UpdateStorySceneInput}
    {now : Nat} {db db' : DB} {r : Option Scene}
    (h : updateStoryScene ctx inp now db = (db', .ok r)) :
    db' = { db with scenes := db.scenes.map fun s =>
        if s.id == inp.id then applySceneUpdate inp now s else s } ∧
    r = ((db.scenes.map fun s =>
        if s.id == inp.id then applySceneUpdate inp now s else s).filter
          fun s => s.id == inp.id).head? := by
  cases hc : updateStorySceneCheck inp with
  | some e => simp [updateStoryScene, hc] at h
  | none =>
    cases ctx with
    | none => simp [updateStoryScene, hc, requireUser_none] at h
    | some u =>
      unfold updateStoryScene at h
      rw [hc] at h
      dsimp only [requireUser] at h
      cases hg : getOwnedScene db inp.id inp.storyId u.id with
      | error e => rw [hg] at h; dsimp only [] at h; simp at h
      | ok x =>
        rw [hg] at h
        dsimp only [] at h
        cases hgate : (if inp.chapterId.isSome then
            (getOwnedChapter db (inp.chapterId.getD "") inp.storyId u.id).map fun _ => ()
          else (.ok () : Except Err Unit)) with
        | error e => rw [hgate] at h; dsimp only [] at h; simp at h
        | ok v =>
          rw [hgate] at h
          dsimp only [] at h
          rw [Prod.mk.injEq] at h
          obtain ⟨hdb, hr⟩ := h
          rw [Except.ok.injEq] at hr
          exact ⟨hdb.symm, hr.symm⟩

theorem listStories_ok_shape {ctx : Option User} {db db2 : DB} {res : ListResult Story}
    (h : listStories ctx db = (db2, .ok res)) :
    db2 = db ∧ (∃ u, ctx = some u ∧
      res.items = db.stories.filter fun s => s.userId == u.id) ∧
    res.total = res.items.length := by
  cases ctx with
  | none => simp [listStories, requireUser_none] at h
  | some u =>
    unfold listStories at h
    dsimp only [requireUser] at h
    rw [Prod.mk.injEq] at h
    obtain ⟨hdb, hr⟩ := h
    rw [Except.ok.injEq] at hr
    subst hr
    exact ⟨hdb.symm, ⟨u, rfl, rfl⟩, rfl⟩

theorem listStoryActs_ok_shape {ctx : Option User} {inp : ListStoryActsInput}
    {db db2 : DB} {res : ListResult Act}
    (h : listStoryActs ctx inp db = (db2, .ok res)) :
    db2 = db ∧ res.items = (db.acts.filter fun a => a.storyId == inp.storyId) ∧
    res.total = res.items.length := by
  cases hc : listStoryActsCheck inp with
  | some e => simp [listStoryActs, hc] at h
  | none =>
    cases ctx with
    | none => simp [listStoryActs, hc, requireUser_none] at h
    | some u =>
      unfold listStoryActs at h
      rw [hc] at h
      dsimp only [requireUser] at h
      cases hg : getOwnedStory db inp.storyId u.id with
      | error e => rw [hg] at h; dsimp only [] at h; simp at h
      | ok s =>
        rw [hg] at h
        dsimp only [] at h
        rw [Prod.mk.injEq] at h
        obtain ⟨hdb, hr⟩ := h
        rw [Except.ok.injEq] at hr
        subst hr
        exact ⟨hdb.symm, rfl, rfl⟩

theorem listStoryChapters_ok_shape {ctx : Option User} {inp : ListStoryChaptersInput}
    {db db2 : DB} {res : ListResult Chapter}
    (h : listStoryChapters ctx inp db = (db2, .ok res)) :
    db2 = db ∧
    res.items = (db.chapters.filter fun c =>
      if truthy inp.actId then
        c.storyId == inp.storyId && c.actId == some (inp.actId.getD "")
      else c.storyId == inp.storyId) ∧
    res.total = res.items.length := by
  cases hc : listStoryChaptersCheck inp with
  | some e => simp [listStoryChapters, hc] at h
  | none =>
    cases ctx with
    | none => simp [listStoryChapters, hc, requireUser_none] at h
    | some u =>
      unfold listStoryChapters at h
      rw [hc] at h
      dsimp only [requireUser] at h
      cases hg : getOwnedStory db inp.storyId u.id with
      | error e => rw [hg] at h; dsimp only [] at h; simp at h
      | ok s =>
        rw [hg] at h
        dsimp only [] at h
        cases hgate : (if truthy inp.actId then
            (getOwnedAct db (inp.actId.getD "") inp.storyId u.id).map fun _ => ()
          else (.ok () : Except Err Unit)) with
        | error e => rw [hgate] at h; dsimp only [] at h; simp at h
        | ok v =>
          rw [hgate] at h
          dsimp only [] at h
          rw [Prod.mk.injEq] at h
          obtain ⟨hdb, hr⟩ := h
          rw [Except.ok.injEq] at hr
          subst hr
          exact ⟨hdb.symm, rfl, rfl⟩

theorem listStoryScenes_ok_shape {ctx : Option User} {inp : ListStoryScenesInput}
    {db db2 : DB} {res : ListResult Scene}
    (h : listStoryScenes ctx inp db = (db2, .ok res)) :
    db2 = db ∧
    res.items = (db.scenes.filter fun s =>
      if truthy inp.chapterId then
        s.storyId == inp.storyId && s.chapterId == some (inp.chapterId.getD "")
      else s.storyId == inp.storyId) ∧
    res.total = res.items.length := by
  cases hc : listStoryScenesCheck inp with
  | some e => simp [listStoryScenes, hc] at h
  | none =>
    cases ctx with
    | none => simp [listStoryScenes, hc, requireUser_none] at h
    | some u =>
      unfold listStoryScenes at h
      rw [hc] at h
      dsimp only [requireUser] at h
      cases hg : getOwnedStory db inp.storyId u.id with
      | error e => rw [hg] at h; dsimp only [] at h; simp at h
      | ok s =>
        rw [hg] at h
        dsimp only [] at h
        cases hgate : (if truthy inp.chapterId then
            (getOwnedChapter db (inp.chapterId.getD "") inp.storyId u.id).map fun _ => ()
          else (.ok () : Except Err Unit)) with
        | error e => rw [hgate] at h; dsimp only [] at h; simp at h
        | ok v =>
          rw [hgate] at h
          dsimp only [] at h
          rw [Prod.mk.injEq] at h
          obtain ⟨hdb, hr⟩ := h
          rw [Except.ok.injEq] at hr
          subst hr
          exact ⟨hdb.symm, rfl, rfl⟩

/-! ### Timestamp refresh lemmas -/

theorem updateStory_rows_updatedAt {ctx : Option User} {inp : UpdateStoryInput}
    {now : Nat} {db db' : DB} {r : Option Story}
    (h : updateStory ctx inp now db = (db', .ok r)) :
    ∀ s' ∈ db'.stories, s'.id = inp.id → s'.updatedAt = now := by
  obtain ⟨hdb, -⟩ := updateStory_ok_shape h
  subst hdb
  intro s' hs' hid
  obtain ⟨s, hs, rfl⟩ := List.mem_map.1 hs'
  by_cases hb : s.id = inp.id
  · simp [hb, applyStoryUpdate]
  · rw [if_neg (by simpa using hb)] at hid
    exact absurd hid hb

theorem updateStoryChapter_rows_updatedAt {ctx : Option User}
    {inp : UpdateStoryChapterInput} {now : Nat} {db db' : DB} {r : Option Chapter}
    (h : updateStoryChapter ctx inp now db = (db', .ok r)) :
    ∀ c' ∈ db'.chapters, c'.id = inp.id → c'.updatedAt = now := by
  obtain ⟨hdb, -⟩ := updateStoryChapter_ok_shape h
  subst hdb
  intro c' hc' hid
  obtain ⟨c, hc, rfl⟩ := List.mem_map.1 hc'
  by_cases hb : c.id = inp.id
  · simp [hb, applyChapterUpdate]
  · rw [if_neg (by simpa using hb)] at hid
    exact absurd hid hb

theorem updateStoryScene_rows_updatedAt {ctx : Option User}
    {inp : UpdateStorySceneInput} {now : Nat} {db db' : DB} {r : Option Scene}
    (h : updateStoryScene ctx inp now db = (db', .ok r)) :
    ∀ x' ∈ db'.scenes, x'.id = inp.id → x'.updatedAt = now := by
  obtain ⟨hdb, -⟩ := updateStoryScene_ok_shape h
  subst hdb
  intro x' hx' hid
  obtain ⟨x, hx, rfl⟩ := List.mem_map.1 hx'
  by_cases hb : x.id = inp.id
  · simp [hb, applySceneUpdate]
  · rw [if_neg (by simpa using hb)] at hid
    exact absurd hid hb

/-- A successful updateStoryAct leaves every act row's id, storyId and
createdAt untouched (the Act row carries no updatedAt column at all). -/
theorem updateStoryAct_preserves_skeleton {ctx : Option User}
    {inp : UpdateStoryActInput} {db db' : DB} {r : Option Act}
    (h : updateStoryAct ctx inp db = (db', .ok r)) :
    db'.acts.map (fun a => (a.id, a.storyId, a.createdAt)) =
      db.acts.map fun a => (a.id, a.storyId, a.createdAt) := by
  obtain ⟨hdb, -⟩ := updateStoryAct_ok_shape h
  subst hdb
  show (db.acts.map _).map _ = _
  rw [List.map_map]
  apply List.map_congr_left
  intro a _
  by_cases hb : a.id = inp.id <;> simp [hb, applyActUpdate]

/-- C9: every accepted create/update mutation on a Story, Chapter or Scene
sets the affected row's updatedAt to the operation time (for creates, the
returned row; for updates, every stored row carrying the target id), while
a successful updateStoryAct leaves every act row's id, storyId and
createdAt unchanged — the Act row type has no updatedAt field at all, so no
updatedAt change is possible. -/
theorem C9_updatedAt_refresh :
    (∀ (ctx : Option User) (inp : CreateStoryInput) (now : Nat) (newId : String)
        (db db' : DB) (st : Story),
      createStory ctx inp now newId db = (db', .ok st) → st.updatedAt = now) ∧
    (∀ (ctx : Option User) (inp : UpdateStoryInput) (now : Nat) (db db' : DB)
        (r : Option Story),
      updateStory ctx inp now db = (db', .ok r) →
      ∀ s' ∈ db'.stories, s'.id = inp.id → s'.updatedAt = now) ∧
    (∀ (ctx : Option User) (inp : CreateStoryChapterInput) (now : Nat)
        (newId : String) (db db' : DB) (c : Chapter),
      createStoryChapter ctx inp now newId db = (db', .ok c) → c.updatedAt = now) ∧
    (∀ (ctx : Option User) (inp : UpdateStoryChapterInput) (now : Nat) (db db' : DB)
        (r : Option Chapter),
      updateStoryChapter ctx inp now db = (db', .ok r) →
      ∀ c' ∈ db'.chapters, c'.id = inp.id → c'.updatedAt = now) ∧
    (∀ (ctx : Option User) (inp : CreateStorySceneInput) (now : Nat)
        (newId : String) (db db' : DB) (x : Scene),
      createStoryScene ctx inp now newId db = (db', .ok x) → x.updatedAt = now) ∧
    (∀ (ctx : Option User) (inp : UpdateStorySceneInput) (now : Nat) (db db' : DB)
        (r : Option Scene),
      updateStoryScene ctx inp now db = (db', .ok r) →
      ∀ x' ∈ db'.scenes, x'.id = inp.id → x'.updatedAt = now) ∧
    (∀ (ctx : Option User) (inp : UpdateStoryActInput) (db db' : DB) (r : Option Act),
      updateStoryAct ctx inp db = (db', .ok r) →
      db'.acts.map (fun a => (a.id, a.storyId, a.createdAt)) =
        db.acts.map fun a => (a.id, a.storyId, a.createdAt)) := by
  refine ⟨?_, ?_, ?_, ?_, ?_, ?_, ?_⟩
  · intro ctx inp now newId db db' st h
    obtain ⟨u, -, hst, -⟩ := createStory_ok_shape h
    rw [hst]; rfl
  · intro ctx inp now db db' r h
    exact updateStory_rows_updatedAt h
  · intro ctx inp now newId db db' c h
    obtain ⟨hc, -⟩ := createStoryChapter_ok_shape h
    rw [hc]; rfl
  · intro ctx inp now db db' r h
    exact updateStoryChapter_rows_updatedAt h
  · intro ctx inp now newId db db' x h
    obtain ⟨hx, -⟩ := createStoryScene_ok_shape h
    rw [hx]; rfl
  · intro ctx inp now db db' r h
    exact updateStoryScene_rows_updatedAt h
  · intro ctx inp db db' r h
    exact updateStoryAct_preserves_skeleton h

/-- Witness for C9: updating the title of chapter c1 of the owned story s1
at time 7 stamps the stored chapter row with updatedAt 7. -/
theorem C9_witness :
    ∀ c' ∈ ((updateStoryChapter (some ⟨"u1"⟩)
        ⟨"c1", "s1", none, none, some "new", none, none⟩ 7 ceDB).1).chapters,
      c'.id = "c1" → c'.updatedAt = 7 :=
  C9_updatedAt_refresh.2.2.2.1 (some ⟨"u1"⟩)
    ⟨"c1", "s1", none, none, some "new", none, none⟩ 7 ceDB _
    (some ⟨"c1", "s1", some "missing", 1, some "new", none, none, 0, 7⟩) rfl

/-! ### Field-level frame lemmas for updates -/

theorem updateStory_field_frame {ctx : Option User} {inp : UpdateStoryInput}
    {now : Nat} {db db' : DB} {r : Option Story}
    (h : updateStory ctx inp now db = (db', .ok r)) :
    db'.acts = db.acts ∧ db'.chapters = db.chapters ∧ db'.scenes = db.scenes ∧
    List.Forall₂ (fun old new =>
      (old.id ≠ inp.id → new = old) ∧
      (old.id = inp.id →
        new.id = old.id ∧ new.userId = old.userId ∧ new.createdAt = old.createdAt ∧
        new.updatedAt = now ∧
        (inp.title = none → new.title = old.title) ∧
        (∀ v, inp.title = some v → new.title = v) ∧
        (inp.logline = none → new.logline = old.logline) ∧
        (∀ v, inp.logline = some v → new.logline = some v) ∧
        (inp.genre = none → new.genre = old.genre) ∧
        (∀ v, inp.genre = some v → new.genre = some v) ∧
        (inp.targetAudience = none → new.targetAudience = old.targetAudience) ∧
        (∀ v, inp.targetAudience = some v → new.targetAudience = some v) ∧
        (inp.status = none → new.status = old.status) ∧
        (∀ v, inp.status = some v → new.status = some v) ∧
        (inp.notes = none → new.notes = old.notes) ∧
        (∀ v, inp.notes = some v → new.notes = some v)))
      db.stories db'.stories := by
  obtain ⟨hdb, -⟩ := updateStory_ok_shape h
  subst hdb
  refine ⟨rfl, rfl, rfl, ?_⟩
  show List.Forall₂ _ db.stories
    (db.stories.map fun s => if s.id == inp.id then applyStoryUpdate inp now s else s)
  rw [List.forall₂_map_right_iff, List.forall₂_same]
  intro s _
  by_cases hb : s.id = inp.id
  · rw [if_pos (beq_iff_eq.mpr hb)]
    refine ⟨fun hne => absurd hb hne, fun _ => ?_⟩
    refine ⟨rfl, rfl, rfl, rfl, ?_, ?_, ?_, ?_, ?_, ?_, ?_, ?_, ?_, ?_, ?_, ?_⟩ <;>
      intros <;> simp_all [applyStoryUpdate, setOpt]
  · rw [if_neg (by simpa using hb)]
    exact ⟨fun _ => rfl, fun heq => absurd heq hb⟩

theorem updateStoryAct_field_frame {ctx : Option User} {inp : UpdateStoryActInput}
    {db db' : DB} {r : Option Act}
    (h : updateStoryAct ctx inp db = (db', .ok r)) :
    db'.stories = db.stories ∧ db'.chapters = db.chapters ∧ db'.scenes = db.scenes ∧
    List.Forall₂ (fun old new =>
      (old.id ≠ inp.id → new = old) ∧
      (old.id = inp.id →
        new.id = old.id ∧ new.storyId = old.storyId ∧ new.createdAt = old.createdAt ∧
        (inp.orderIndex = none → new.orderIndex = old.orderIndex) ∧
        (∀ v, inp.orderIndex = some v → new.orderIndex = v) ∧
        (inp.title = none → new.title = old.title) ∧
        (∀ v, inp.title = some v → new.title = some v) ∧
        (inp.summary = none → new.summary = old.summary) ∧
        (∀ v, inp.summary = some v → new.summary = some v)))
      db.acts db'.acts := by
  obtain ⟨hdb, -⟩ := updateStoryAct_ok_shape h
  subst hdb
  refine ⟨rfl, rfl, rfl, ?_⟩
  show List.Forall₂ _ db.acts
    (db.acts.map fun a => if a.id == inp.id then applyActUpdate inp a else a)
  rw [List.forall₂_map_right_iff, List.forall₂_same]
  intro a _
  by_cases hb : a.id = inp.id
  · rw [if_pos (beq_iff_eq.mpr hb)]
    refine ⟨fun hne => absurd hb hne, fun _ => ?_⟩
    refine ⟨rfl, rfl, rfl, ?_, ?_, ?_, ?_, ?_, ?_⟩ <;>
      intros <;> simp_all [applyActUpdate, setOpt]
  · rw [if_neg (by simpa using hb)]
    exact ⟨fun _ => rfl, fun heq => absurd heq hb⟩

theorem updateStoryChapter_field_frame {ctx : Option User}
    {inp : UpdateStoryChapterInput} {now : Nat} {db db' : DB} {r : Option Chapter}
    (h : updateStoryChapter ctx inp now db = (db', .ok r)) :
    db'.stories = db.stories ∧ db'.acts = db.acts ∧ db'.scenes = db.scenes ∧
    List.Forall₂ (fun old new =>
      (old.id ≠ inp.id → new = old) ∧
      (old.id = inp.id →
        new.id = old.id ∧ new.storyId = old.storyId ∧ new.createdAt = old.createdAt ∧
        new.updatedAt = now ∧
        (inp.actId = none → new.actId = old.actId) ∧
        (∀ v, inp.actId = some v → new.actId = some v) ∧
        (inp.orderIndex = none → new.orderIndex = old.orderIndex) ∧
        (∀ v, inp.orderIndex = some v → new.orderIndex = v) ∧
        (inp.title = none → new.title = old.title) ∧
        (∀ v, inp.title = some v → new.title = some v) ∧
        (inp.povCharacter = none → new.povCharacter = old.povCharacter) ∧
        (∀ v, inp.povCharacter = some v → new.povCharacter = some v) ∧
        (inp.summary = none → new.summary = old.summary) ∧
        (∀ v, inp.summary = some v → new.summary = some v)))
      db.chapters db'.chapters := by
  obtain ⟨hdb, -⟩ := updateStoryChapter_ok_shape h
  subst hdb
  refine ⟨rfl, rfl, rfl, ?_⟩
  show List.Forall₂ _ db.chapters
    (db.chapters.map fun c => if c.id == inp.id then applyChapterUpdate inp now c else c)
  rw [List.forall₂_map_right_iff, List.forall₂_same]
  intro c _
  by_cases hb : c.id = inp.id
  · rw [if_pos (beq_iff_eq.mpr hb)]
    refine ⟨fun hne => absurd hb hne, fun _ => ?_⟩
    refine ⟨rfl, rfl, rfl, rfl, ?_, ?_, ?_, ?_, ?_, ?_, ?_, ?_, ?_, ?_⟩ <;>
      intros <;> simp_all [applyChapterUpdate, setOpt]
  · rw [if_neg (by simpa using hb)]
    exact ⟨fun _ => rfl, fun heq => absurd heq hb⟩

theorem updateStoryScene_field_frame {ctx : Option User}
    {inp : UpdateStorySceneInput} {now : Nat} {db db' : DB} {r : Option Scene}
    (h : updateStoryScene ctx inp now db = (db', .ok r)) :
    db'.stories = db.stories ∧ db'.acts = db.acts ∧ db'.chapters = db.chapters ∧
    List.Forall₂ (fun old new =>
      (old.id ≠ inp.id → new = old) ∧
      (old.id = inp.id →
        new.id = old.id ∧ new.storyId = old.storyId ∧ new.createdAt = old.createdAt ∧
        new.updatedAt = now ∧
        (inp.chapterId = none → new.chapterId = old.chapterId) ∧
        (∀ v, inp.chapterId = some v → new.chapterId = some v) ∧
        (inp.orderIndex = none → new.orderIndex = old.orderIndex) ∧
        (∀ v, inp.orderIndex = some v → new.orderIndex = v) ∧
        (inp.setting = none → new.setting = old.setting) ∧
        (∀ v, inp.setting = some v → new.setting = some v) ∧
        (inp.goal = none → new.goal = old.goal) ∧
        (∀ v, inp.goal = some v → new.goal = some v) ∧
        (inp.conflict = none → new.conflict = old.conflict) ∧
        (∀ v, inp.conflict = some v → new.conflict = some v) ∧
        (inp.outcome = none → new.outcome = old.outcome) ∧
        (∀ v, inp.outcome = some v → new.outcome = some v) ∧
        (inp.content = none → new.content = old.content) ∧
        (∀ v, inp.content = some v → new.content = some v)))
      db.scenes db'.scenes := by
  obtain ⟨hdb, -⟩ := updateStoryScene_ok_shape h
  subst hdb
  refine ⟨rfl, rfl, rfl, ?_⟩
  show List.Forall₂ _ db.scenes
    (db.scenes.map fun s => if s.id == inp.id then applySceneUpdate inp now s else s)
  rw [List.forall₂_map_right_iff, List.forall₂_same]
  intro s _
  by_cases hb : s.id = inp.id
  · rw [if_pos (beq_iff_eq.mpr hb)]
    refine ⟨fun hne => absurd hb hne, fun _ => ?_⟩
    refine ⟨rfl, rfl, rfl, rfl, ?_, ?_, ?_, ?_, ?_, ?_, ?_, ?_, ?_, ?_, ?_, ?_, ?_, ?_⟩ <;>
      intros <;> simp_all [applySceneUpdate, setOpt]
  · rw [if_neg (by simpa using hb)]
    exact ⟨fun _ => rfl, fun heq => absurd heq hb⟩

/-- An act a1 in story s1. -/
def gAct : Act := ⟨"a1", "s1", 1, none, none, 0⟩

/-- Datastore with story s1 owned by u1 and act a1 inside it. -/
def gDB : DB := ⟨[gStory], [gAct], [], []⟩

/-- Counterexample to C4 as stated: updateStory on story s1 providing
exactly one mutable field (title) also changes the stored row's updatedAt
from 0 to the operation time 5, so the update does not leave all other
fields unchanged. -/
theorem C4_counterexample :
    ((updateStory (some ⟨"u1"⟩) ⟨"s1", some "T2", none, none, none, none, none⟩
        5 ceDB).1).stories =
      [⟨"s1", "u1", "T2", none, none, none, none, none, 0, 5⟩, ceStory2] ∧
    ceDB.stories = [gStory, ceStory2] ∧ gStory.updatedAt = 0 ∧ (5 : Nat) ≠ 0 :=
  ⟨rfl, rfl, rfl, by decide⟩

/-- C4 (amended): a successful update applies exactly the provided mutable
fields to the rows carrying the target id — each omitted field keeps its
stored value, each provided field takes the supplied value — refreshes
updatedAt on Story, Chapter and Scene rows (Act rows have none), preserves
the identifier, owner/ancestor-story and createdAt columns, leaves every
row with a different id unchanged, and leaves the other three tables
unchanged.  In particular an update providing exactly one mutable field
changes only that field (plus updatedAt where the entity has one). -/
theorem C4_partial_update_frame :
    (∀ (ctx : Option User) (inp : UpdateStoryInput) (now : Nat) (db db' : DB)
        (r : Option Story), updateStory ctx inp now db = (db', .ok r) →
      db'.acts = db.acts ∧ db'.chapters = db.chapters ∧ db'.scenes = db.scenes ∧
      List.Forall₂ (fun old new =>
        (old.id ≠ inp.id → new = old) ∧
        (old.id = inp.id →
          new.id = old.id ∧ new.userId = old.userId ∧ new.createdAt = old.createdAt ∧
          new.updatedAt = now ∧
          (inp.title = none → new.title = old.title) ∧
          (∀ v, inp.title = some v → new.title = v) ∧
          (inp.logline = none → new.logline = old.logline) ∧
          (∀ v, inp.logline = some v → new.logline = some v) ∧
          (inp.genre = none → new.genre = old.genre) ∧
          (∀ v, inp.genre = some v → new.genre = some v) ∧
          (inp.targetAudience = none → new.targetAudience = old.targetAudience) ∧
          (∀ v, inp.targetAudience = some v → new.targetAudience = some v) ∧
          (inp.status = none → new.status = old.status) ∧
          (∀ v, inp.status = some v → new.status = some v) ∧
          (inp.notes = none → new.notes = old.notes) ∧
          (∀ v, inp.notes = some v → new.notes = some v)))
        db.stories db'.stories) ∧
    (∀ (ctx : Option User) (inp : UpdateStoryActInput) (db db' : DB) (r : Option Act),
      updateStoryAct ctx inp db = (db', .ok r) →
      db'.stories = db.stories ∧ db'.chapters = db.chapters ∧ db'.scenes = db.scenes ∧
      List.Forall₂ (fun old new =>
        (old.id ≠ inp.id → new = old) ∧
        (old.id = inp.id →
          new.id = old.id ∧ new.storyId = old.storyId ∧ new.createdAt = old.createdAt ∧
          (inp.orderIndex = none → new.orderIndex = old.orderIndex) ∧
          (∀ v, inp.orderIndex = some v → new.orderIndex = v) ∧
          (inp.title = none → new.title = old.title) ∧
          (∀ v, inp.title = some v → new.title = some v) ∧
          (inp.summary = none → new.summary = old.summary) ∧
          (∀ v, inp.summary = some v → new.summary = some v)))
        db.acts db'.acts) ∧
    (∀ (ctx : Option User) (inp : UpdateStoryChapterInput) (now : Nat) (db db' : DB)
        (r : Option Chapter), updateStoryChapter ctx inp now db = (db', .ok r) →
      db'.stories = db.stories ∧ db'.acts = db.acts ∧ db'.scenes = db.scenes ∧
      List.Forall₂ (fun old new =>
        (old.id ≠ inp.id → new = old) ∧
        (old.id = inp.id →
          new.id = old.id ∧ new.storyId = old.storyId ∧ new.createdAt = old.createdAt ∧
          new.updatedAt = now ∧
          (inp.actId = none → new.actId = old.actId) ∧
          (∀ v, inp.actId = some v → new.actId = some v) ∧
          (inp.orderIndex = none → new.orderIndex = old.orderIndex) ∧
          (∀ v, inp.orderIndex = some v → new.orderIndex = v) ∧
          (inp.title = none → new.title = old.title) ∧
          (∀ v, inp.title = some v → new.title = some v) ∧
          (inp.povCharacter = none → new.povCharacter = old.povCharacter) ∧
          (∀ v, inp.povCharacter = some v → new.povCharacter = some v) ∧
          (inp.summary = none → new.summary = old.summary) ∧
          (∀ v, inp.summary = some v → new.summary = some v)))
        db.chapters db'.chapters) ∧
    (∀ (ctx : Option User) (inp : UpdateStorySceneInput) (now : Nat) (db db' : DB)
        (r : Option Scene), updateStoryScene ctx inp now db = (db', .ok r) →
      db'.stories = db.stories ∧ db'.acts = db.acts ∧ db'.chapters = db.chapters ∧
      List.Forall₂ (fun old new =>
        (old.id ≠ inp.id → new = old) ∧
        (old.id = inp.id →
          new.id = old.id ∧ new.storyId = old.storyId ∧ new.createdAt = old.createdAt ∧
          new.updatedAt = now ∧
          (inp.chapterId = none → new.chapterId = old.chapterId) ∧
          (∀ v, inp.chapterId = some v → new.chapterId = some v) ∧
          (inp.orderIndex = none → new.orderIndex = old.orderIndex) ∧
          (∀ v, inp.orderIndex = some v → new.orderIndex = v) ∧
          (inp.setting = none → new.setting = old.setting) ∧
          (∀ v, inp.setting = some v → new.setting = some v) ∧
          (inp.goal = none → new.goal = old.goal) ∧
          (∀ v, inp.goal = some v → new.goal = some v) ∧
          (inp.conflict = none → new.conflict = old.conflict) ∧
          (∀ v, inp.conflict = some v → new.conflict = some v) ∧
          (inp.outcome = none → new.outcome = old.outcome) ∧
          (∀ v, inp.outcome = some v → new.outcome = some v) ∧
          (inp.content = none → new.content = old.content) ∧
          (∀ v, inp.content = some v → new.content = some v)))
        db.scenes db'.scenes) :=
  ⟨fun _ _ _ _ _ _ h => updateStory_field_frame h,
   fun _ _ _ _ _ h => updateStoryAct_field_frame h,
   fun _ _ _ _ _ _ h => updateStoryChapter_field_frame h,
   fun _ _ _ _ _ _ h => updateStoryScene_field_frame h⟩

/-- Witness for C4: updateStoryAct on act a1 of owned story s1 providing
only orderIndex = 2 rewrites exactly that field of the stored act row and
touches nothing else. -/
theorem C4_witness :
    (⟨[gStory], [⟨"a1", "s1", 2, none, none, 0⟩], [], []⟩ : DB).stories = gDB.stories ∧
    (⟨[gStory], [⟨"a1", "s1", 2, none, none, 0⟩], [], []⟩ : DB).chapters = gDB.chapters ∧
    (⟨[gStory], [⟨"a1", "s1", 2, none, none, 0⟩], [], []⟩ : DB).scenes = gDB.scenes ∧
    List.Forall₂ (fun old new =>
      (old.id ≠ "a1" → new = old) ∧
      (old.id = "a1" →
        new.id = old.id ∧ new.storyId = old.storyId ∧ new.createdAt = old.createdAt ∧
        ((some 2 : Option Int) = none → new.orderIndex = old.orderIndex) ∧
        (∀ v, (some 2 : Option Int) = some v → new.orderIndex = v) ∧
        ((none : Option String) = none → new.title = old.title) ∧
        (∀ v, (none : Option String) = some v → new.title = some v) ∧
        ((none : Option String) = none → new.summary = old.summary) ∧
        (∀ v, (none : Option String) = some v → new.summary = some v)))
      gDB.acts (⟨[gStory], [⟨"a1", "s1", 2, none, none, 0⟩], [], []⟩ : DB).acts :=
  C4_partial_update_frame.2.1 (some ⟨"u1"⟩) ⟨"a1", "s1", some 2, none, none⟩ gDB
    ⟨[gStory], [⟨"a1", "s1", 2, none, none, 0⟩], [], []⟩
    (some ⟨"a1", "s1", 2, none, none, 0⟩) rfl

/-- C5: the three descendant create operations default orderIndex to 1 when
it is omitted, and default the optional ancestor reference (actId for
chapters, chapterId for scenes) to absent when it is omitted. -/
theorem C5_create_defaults :
    (∀ (ctx : Option User) (inp : CreateStoryActInput) (now : Nat) (newId : String)
        (db db' : DB) (a : Act),
      createStoryAct ctx inp now newId db = (db', .ok a) →
      inp.orderIndex = none → a.orderIndex = 1) ∧
    (∀ (ctx : Option User) (inp : CreateStoryChapterInput) (now : Nat)
        (newId : String) (db db' : DB) (c : Chapter),
      createStoryChapter ctx inp now newId db = (db', .ok c) →
      (inp.orderIndex = none → c.orderIndex = 1) ∧
      (inp.actId = none → c.actId = none)) ∧
    (∀ (ctx : Option User) (inp : CreateStorySceneInput) (now : Nat)
        (newId : String) (db db' : DB) (x : Scene),
      createStoryScene ctx inp now newId db = (db', .ok x) →
      (inp.orderIndex = none → x.orderIndex = 1) ∧
      (inp.chapterId = none → x.chapterId = none)) := by
  refine ⟨?_, ?_, ?_⟩
  · intro ctx inp now newId db db' a h hoi
    obtain ⟨ha, -⟩ := createStoryAct_ok_shape h
    rw [ha]
    simp [newActRow, hoi]
  · intro ctx inp now newId db db' c h
    obtain ⟨hc, -⟩ := createStoryChapter_ok_shape h
    rw [hc]
    exact ⟨fun hoi => by simp [newChapterRow, hoi],
           fun hai => by simp [newChapterRow, hai]⟩
  · intro ctx inp now newId db db' x h
    obtain ⟨hx, -⟩ := createStoryScene_ok_shape h
    rw [hx]
    exact ⟨fun hoi => by simp [newSceneRow, hoi],
           fun hci => by simp [newSceneRow, hci]⟩

/-- Witness for C5: createStoryChapter on owned story s1 with orderIndex and
actId omitted creates a chapter with orderIndex 1 and no act link. -/
theorem C5_witness :
    (createStoryChapter (some ⟨"u1"⟩) ⟨"s1", none, none, none, none, none⟩
        3 "c7" ceDB).2 =
      .ok ⟨"c7", "s1", none, 1, none, none, none, 3, 3⟩ ∧
    (⟨"c7", "s1", none, 1, none, none, none, 3, 3⟩ : Chapter).orderIndex = 1 ∧
    (⟨"c7", "s1", none, 1, none, none, none, 3, 3⟩ : Chapter).actId = none := by
  have h := C5_create_defaults.2.1 (some ⟨"u1"⟩) ⟨"s1", none, none, none, none, none⟩
    3 "c7" ceDB
    ⟨[gStory, ceStory2], [ceEmptyAct],
      [ceChapter, ⟨"c7", "s1", none, 1, none, none, none, 3, 3⟩], []⟩
    ⟨"c7", "s1", none, 1, none, none, none, 3, 3⟩ rfl
  exact ⟨rfl, h.1 rfl, h.2 rfl⟩

/-! ### List narrowing -/

theorem listStoryChapters_narrow_subset {ctx : Option User}
    {inp : ListStoryChaptersInput} {db db1 db2 : DB}
    {res resAll : ListResult Chapter}
    (h1 : listStoryChapters ctx inp db = (db1, .ok res))
    (h2 : listStoryChapters ctx ⟨inp.storyId, none⟩ db = (db2, .ok resAll)) :
    ∀ c ∈ res.items, c ∈ resAll.items := by
  obtain ⟨-, hres, -⟩ := listStoryChapters_ok_shape h1
  obtain ⟨-, hresAll, -⟩ := listStoryChapters_ok_shape h2
  intro c hc
  rw [hres] at hc
  rw [hresAll]
  rw [List.mem_filter] at hc ⊢
  refine ⟨hc.1, ?_⟩
  have hq := hc.2
  have hbase : (c.storyId == inp.storyId) = true := by
    by_cases ht : truthy inp.actId
    · rw [if_pos ht, Bool.and_eq_true] at hq
      exact hq.1
    · rw [if_neg ht] at hq
      exact hq
  simpa [truthy] using hbase

theorem listStoryScenes_narrow_subset {ctx : Option User}
    {inp : ListStoryScenesInput} {db db1 db2 : DB}
    {res resAll : ListResult Scene}
    (h1 : listStoryScenes ctx inp db = (db1, .ok res))
    (h2 : listStoryScenes ctx ⟨inp.storyId, none⟩ db = (db2, .ok resAll)) :
    ∀ s ∈ res.items, s ∈ resAll.items := by
  obtain ⟨-, hres, -⟩ := listStoryScenes_ok_shape h1
  obtain ⟨-, hresAll, -⟩ := listStoryScenes_ok_shape h2
  intro s hs
  rw [hres] at hs
  rw [hresAll]
  rw [List.mem_filter] at hs ⊢
  refine ⟨hs.1, ?_⟩
  have hq := hs.2
  have hbase : (s.storyId == inp.storyId) = true := by
    by_cases ht : truthy inp.chapterId
    · rw [if_pos ht, Bool.and_eq_true] at hq
      exact hq.1
    · rw [if_neg ht] at hq
      exact hq
  simpa [truthy] using hbase

/-- A chapter in story s1 grouped under act a1. -/
def nChapter : Chapter := ⟨"c1", "s1", some "a1", 1, none, none, none, 0, 0⟩

/-- Datastore where the only chapter of story s1 sits under act a1. -/
def nDB : DB := ⟨[gStory], [gAct], [nChapter], []⟩

/-- Counterexample to C6 as stated: when every chapter of the story carries
the narrowing actId, the narrowed and unnarrowed listStoryChapters calls
return identical result sets, so the narrowed result is not a strict
subset of the unnarrowed one. -/
theorem C6_counterexample :
    (listStoryChapters (some ⟨"u1"⟩) ⟨"s1", some "a1"⟩ nDB).2 =
      .ok ⟨[nChapter], 1⟩ ∧
    (listStoryChapters (some ⟨"u1"⟩) ⟨"s1", none⟩ nDB).2 =
      .ok ⟨[nChapter], 1⟩ :=
  ⟨rfl, rfl⟩

/-- C6 (amended): every list operation returns total equal to the length of
the returned items, and for listStoryChapters / listStoryScenes the result
of a call with a narrowing ancestor id is a subset — not necessarily
strict — of the result of the same call without it. -/
theorem C6_list_total_and_narrowing :
    (∀ (ctx : Option User) (db db2 : DB) (res : ListResult Story),
      listStories ctx db = (db2, .ok res) → res.total = res.items.length) ∧
    (∀ (ctx : Option User) (inp : ListStoryActsInput) (db db2 : DB)
        (res : ListResult Act),
      listStoryActs ctx inp db = (db2, .ok res) → res.total = res.items.length) ∧
    (∀ (ctx : Option User) (inp : ListStoryChaptersInput) (db db2 : DB)
        (res : ListResult Chapter),
      listStoryChapters ctx inp db = (db2, .ok res) → res.total = res.items.length) ∧
    (∀ (ctx : Option User) (inp : ListStoryScenesInput) (db db2 : DB)
        (res : ListResult Scene),
      listStoryScenes ctx inp db = (db2, .ok res) → res.total = res.items.length) ∧
    (∀ (ctx : Option User) (inp : ListStoryChaptersInput) (db db1 db2 : DB)
        (res resAll : ListResult Chapter),
      listStoryChapters ctx inp db = (db1, .ok res) →
      listStoryChapters ctx ⟨inp.storyId, none⟩ db = (db2, .ok resAll) →
      ∀ c ∈ res.items, c ∈ resAll.items) ∧
    (∀ (ctx : Option User) (inp : ListStoryScenesInput) (db db1 db2 : DB)
        (res resAll : ListResult Scene),
      listStoryScenes ctx inp db = (db1, .ok res) →
      listStoryScenes ctx ⟨inp.storyId, none⟩ db = (db2, .ok resAll) →
      ∀ s ∈ res.items, s ∈ resAll.items) :=
  ⟨fun _ _ _ _ h => (listStories_ok_shape h).2.2,
   fun _ _ _ _ _ h => (listStoryActs_ok_shape h).2.2,
   fun _ _ _ _ _ h => (listStoryChapters_ok_shape h).2.2,
   fun _ _ _ _ _ h => (listStoryScenes_ok_shape h).2.2,
   fun _ _ _ _ _ _ _ h1 h2 => listStoryChapters_narrow_subset h1 h2,
   fun _ _ _ _ _ _ _ h1 h2 => listStoryScenes_narrow_subset h1 h2⟩

/-- Witness for C6: on the one-chapter datastore, the act-narrowed chapter
listing is a subset of the unnarrowed one (here they coincide). -/
theorem C6_witness :
    ∀ c ∈ (⟨[nChapter], 1⟩ : ListResult Chapter).items,
      c ∈ (⟨[nChapter], 1⟩ : ListResult Chapter).items :=
  C6_list_total_and_narrowing.2.2.2.2.1 (some ⟨"u1"⟩) ⟨"s1", some "a1"⟩ nDB
    nDB nDB ⟨[nChapter], 1⟩ ⟨[nChapter], 1⟩ rfl rfl

/-! ### Unauthenticated calls -/

/-- Counterexample to C7 as stated: with no resolvable caller identity and a
no-op update payload, updateStory fails with the validation error, not
Unauthorized — the zod schema (including the at-least-one-field refinement)
runs before the handler, hence before requireUser. -/
theorem C7_counterexample :
    updateStory none ⟨"s1", none, none, none, none, none, none⟩ 0 wDB =
      (wDB, .error noFieldsErr) ∧
    noFieldsErr.code ≠ ErrCode.unauthorized :=
  ⟨rfl, by decide⟩

/-- C7 (amended): for every operation whose input passes its schema check, a
call with no resolvable caller identity fails with Unauthorized and leaves
the datastore unchanged, whatever the datastore contents — the identity
check precedes ownership resolution and any datastore access, but comes
after the framework's input validation. -/
theorem C7_unauthorized_after_validation :
    (∀ (inp : CreateStoryInput) (now : Nat) (newId : String) (db : DB),
      createStoryCheck inp = none →
      createStory none inp now newId db = (db, .error unauthorizedErr)) ∧
    (∀ (inp : UpdateStoryInput) (now : Nat) (db : DB),
      updateStoryCheck inp = none →
      updateStory none inp now db = (db, .error unauthorizedErr)) ∧
    (∀ db : DB, listStories none db = (db, .error unauthorizedErr)) ∧
    (∀ (inp : CreateStoryActInput) (now : Nat) (newId : String) (db : DB),
      createStoryActCheck inp = none →
      createStoryAct none inp now newId db = (db, .error unauthorizedErr)) ∧
    (∀ (inp : UpdateStoryActInput) (db : DB),
      updateStoryActCheck inp = none →
      updateStoryAct none inp db = (db, .error unauthorizedErr)) ∧
    (∀ (inp : DeleteInput) (db : DB),
      deleteCheck inp = none →
      deleteStoryAct none inp db = (db, .error unauthorizedErr)) ∧
    (∀ (inp : ListStoryActsInput) (db : DB),
      listStoryActsCheck inp = none →
      listStoryActs none inp db = (db, .error unauthorizedErr)) ∧
    (∀ (inp : CreateStoryChapterInput) (now : Nat) (newId : String) (db : DB),
      createStoryChapterCheck inp = none →
      createStoryChapter none inp now newId db = (db, .error unauthorizedErr)) ∧
    (∀ (inp : UpdateStoryChapterInput) (now : Nat) (db : DB),
      updateStoryChapterCheck inp = none →
      updateStoryChapter none inp now db = (db, .error unauthorizedErr)) ∧
    (∀ (inp : DeleteInput) (db : DB),
      deleteCheck inp = none →
      deleteStoryChapter none inp db = (db, .error unauthorizedErr)) ∧
    (∀ (inp : ListStoryChaptersInput) (db : DB),
      listStoryChaptersCheck inp = none →
      listStoryChapters none inp db = (db, .error unauthorizedErr)) ∧
    (∀ (inp : CreateStorySceneInput) (now : Nat) (newId : String) (db : DB),
      createStorySceneCheck inp = none →
      createStoryScene none inp now newId db = (db, .error unauthorizedErr)) ∧
    (∀ (inp : UpdateStorySceneInput) (now : Nat) (db : DB),
      updateStorySceneCheck inp = none →
      updateStoryScene none inp now db = (db, .error unauthorizedErr)) ∧
    (∀ (inp : DeleteInput) (db : DB),
      deleteCheck inp = none →
      deleteStoryScene none inp db = (db, .error unauthorizedErr)) ∧
    (∀ (inp : ListStoryScenesInput) (db : DB),
      listStoryScenesCheck inp = none →
      listStoryScenes none inp db = (db, .error unauthorizedErr)) := by
  refine ⟨?_, ?_, ?_, ?_, ?_, ?_, ?_, ?_, ?_, ?_, ?_, ?_, ?_, ?_, ?_⟩
  · intro inp now newId db hc; simp [createStory, hc, requireUser_none]
  · intro inp now db hc; simp [updateStory, hc, requireUser_none]
  · intro db; rfl
  · intro inp now newId db hc; simp [createStoryAct, hc, requireUser_none]
  · intro inp db hc; simp [updateStoryAct, hc, requireUser_none]
  · intro inp db hc; simp [deleteStoryAct, hc, requireUser_none]
  · intro inp db hc; simp [listStoryActs, hc, requireUser_none]
  · intro inp now newId db hc; simp [createStoryChapter, hc, requireUser_none]
  · intro inp now db hc; simp [updateStoryChapter, hc, requireUser_none]
  · intro inp db hc; simp [deleteStoryChapter, hc, requireUser_none]
  · intro inp db hc; simp [listStoryChapters, hc, requireUser_none]
  · intro inp now newId db hc; simp [createStoryScene, hc, requireUser_none]
  · intro inp now db hc; simp [updateStoryScene, hc, requireUser_none]
  · intro inp db hc; simp [deleteStoryScene, hc, requireUser_none]
  · intro inp db hc; simp [listStoryScenes, hc, requireUser_none]

/-- Witness for C7: an unauthenticated updateStory with a valid payload
fails Unauthorized and leaves the datastore unchanged. -/
theorem C7_witness :
    updateStory none ⟨"s1", some "T2", none, none, none, none, none⟩ 0 wDB =
      (wDB, .error unauthorizedErr) :=
  C7_unauthorized_after_validation.2.1
    ⟨"s1", some "T2", none, none, none, none, none⟩ 0 wDB rfl

/-! ### Error frame: failed gates leave the datastore untouched -/

theorem createStory_err_frame (ctx : Option User) (inp : CreateStoryInput)
    (now : Nat) (newId : String) (db : DB)
    (h : isErr (createStory ctx inp now newId db).2 = true) :
    (createStory ctx inp now newId db).1 = db := by
  cases hc : createStoryCheck inp with
  | some e => simp [createStory, hc]
  | none =>
    cases ctx with
    | none => simp [createStory, hc, requireUser_none]
    | some u => simp [createStory, hc, requireUser_some, isErr] at h

theorem updateStory_err_frame (ctx : Option User) (inp : UpdateStoryInput)
    (now : Nat) (db : DB)
    (h : isErr (updateStory ctx inp now db).2 = true) :
    (updateStory ctx inp now db).1 = db := by
  cases hc : updateStoryCheck inp with
  | some e => simp [updateStory, hc]
  | none =>
    cases ctx with
    | none => simp [updateStory, hc, requireUser_none]
    | some u =>
      cases hg : getOwnedStory db inp.id u.id with
      | error e => simp [updateStory, hc, requireUser_some, hg]
      | ok s => simp [updateStory, hc, requireUser_some, hg, isErr] at h

theorem listStories_db_frame (ctx : Option User) (db : DB) :
    (listStories ctx db).1 = db := by
  cases ctx with
  | none => simp [listStories, requireUser_none]
  | some u => simp [listStories, requireUser_some]

theorem createStoryAct_err_frame (ctx : Option User) (inp : CreateStoryActInput)
    (now : Nat) (newId : String) (db : DB)
    (h : isErr (createStoryAct ctx inp now newId db).2 = true) :
    (createStoryAct ctx inp now newId db).1 = db := by
  cases hc : createStoryActCheck inp with
  | some e => simp [createStoryAct, hc]
  | none =>
    cases ctx with
    | none => simp [createStoryAct, hc, requireUser_none]
    | some u =>
      cases hg : getOwnedStory db inp.storyId u.id with
      | error e => simp [createStoryAct, hc, requireUser_some, hg]
      | ok s => simp [createStoryAct, hc, requireUser_some, hg, isErr] at h

theorem updateStoryAct_err_frame (ctx : Option User) (inp : UpdateStoryActInput)
    (db : DB) (h : isErr (updateStoryAct ctx inp db).2 = true) :
    (updateStoryAct ctx inp db).1 = db := by
  cases hc : updateStoryActCheck inp with
  | some e => simp [updateStoryAct, hc]
  | none =>
    cases ctx with
    | none => simp [updateStoryAct, hc, requireUser_none]
    | some u =>
      cases hg : getOwnedAct db inp.id inp.storyId u.id with
      | error e => simp [updateStoryAct, hc, requireUser_some, hg]
      | ok a => simp [updateStoryAct, hc, requireUser_some, hg, isErr] at h

theorem deleteStoryAct_err_frame (ctx : Option User) (inp : DeleteInput) (db : DB)
    (h : isErr (deleteStoryAct ctx inp db).2 = true) :
    (deleteStoryAct ctx inp db).1 = db := by
  cases hc : deleteCheck inp with
  | some e => simp [deleteStoryAct, hc]
  | none =>
    cases ctx with
    | none => simp [deleteStoryAct, hc, requireUser_none]
    | some u =>
      cases hg : getOwnedAct db inp.id inp.storyId u.id with
      | error e => simp [deleteStoryAct, hc, requireUser_some, hg]
      | ok a => simp [deleteStoryAct, hc, requireUser_some, hg, isErr] at h

theorem listStoryActs_db_frame (ctx : Option User) (inp : ListStoryActsInput)
    (db : DB) : (listStoryActs ctx inp db).1 = db := by
  cases hc : listStoryActsCheck inp with
  | some e => simp [listStoryActs, hc]
  | none =>
    cases ctx with
    | none => simp [listStoryActs, hc, requireUser_none]
    | some u =>
      cases hg : getOwnedStory db inp.storyId u.id with
      | error e => simp [listStoryActs, hc, requireUser_some, hg]
      | ok s => simp [listStoryActs, hc, requireUser_some, hg]

theorem createStoryChapter_err_frame (ctx : Option User)
    (inp : CreateStoryChapterInput) (now : Nat) (newId : String) (db : DB)
    (h : isErr (createStoryChapter ctx inp now newId db).2 = true) :
    (createStoryChapter ctx inp now newId db).1 = db := by
  cases hc : createStoryChapterCheck inp with
  | some e => simp [createStoryChapter, hc]
  | none =>
    cases ctx with
    | none => simp [createStoryChapter, hc, requireUser_none]
    | some u =>
      cases hg : getOwnedStory db inp.storyId u.id with
      | error e => simp [createStoryChapter, hc, requireUser_some, hg]
      | ok s =>
        cases hgate : (if truthy inp.actId then
            (getOwnedAct db (inp.actId.getD "") inp.storyId u.id).map fun _ => ()
          else (.ok () : Except Err Unit)) with
        | error e => simp [createStoryChapter, hc, requireUser_some, hg, hgate]
        | ok v => simp [createStoryChapter, hc, requireUser_some, hg, hgate, isErr] at h

theorem updateStoryChapter_err_frame (ctx : Option User)
    (inp : UpdateStoryChapterInput) (now : Nat) (db : DB)
    (h : isErr (updateStoryChapter ctx inp now db).2 = true) :
    (updateStoryChapter ctx inp now db).1 = db := by
  cases hc : updateStoryChapterCheck inp with
  | some e => simp [updateStoryChapter, hc]
  | none =>
    cases ctx with
    | none => simp [updateStoryChapter, hc, requireUser_none]
    | some u =>
      cases hg : getOwnedChapter db inp.id inp.storyId u.id with
      | error e => simp [updateStoryChapter, hc, requireUser_some, hg]
      | ok c =>
        cases hgate : (if inp.actId.isSome then
            (getOwnedAct db (inp.actId.getD "") inp.storyId u.id).map fun _ => ()
          else (.ok () : Except Err Unit)) with
        | error e => simp [updateStoryChapter, hc, requireUser_some, hg, hgate]
        | ok v => simp [updateStoryChapter, hc, requireUser_some, hg, hgate, isErr] at h

theorem deleteStoryChapter_err_frame (ctx : Option User) (inp : DeleteInput)
    (db : DB) (h : isErr (deleteStoryChapter ctx inp db).2 = true) :
    (deleteStoryChapter ctx inp db).1 = db := by
  cases hc : deleteCheck inp with
  | some e => simp [deleteStoryChapter, hc]
  | none =>
    cases ctx with
    | none => simp [deleteStoryChapter, hc, requireUser_none]
    | some u =>
      cases hg : getOwnedChapter db inp.id inp.storyId u.id with
      | error e => simp [deleteStoryChapter, hc, requireUser_some, hg]
      | ok c => simp [deleteStoryChapter, hc, requireUser_some, hg, isErr] at h

theorem listStoryChapters_db_frame (ctx : Option User)
    (inp : ListStoryChaptersInput) (db : DB) :
    (listStoryChapters ctx inp db).1 = db := by
  cases hc : listStoryChaptersCheck inp with
  | some e => simp [listStoryChapters, hc]
  | none =>
    cases ctx with
    | none => simp [listStoryChapters, hc, requireUser_none]
    | some u =>
      cases hg : getOwnedStory db inp.storyId u.id with
      | error e => simp [listStoryChapters, hc, requireUser_some, hg]
      | ok s =>
        cases hgate : (if truthy inp.actId then
            (getOwnedAct db (inp.actId.getD "") inp.storyId u.id).map fun _ => ()
          else (.ok () : Except Err Unit)) with
        | error e => simp [listStoryChapters, hc, requireUser_some, hg, hgate]
        | ok v => simp [listStoryChapters, hc, requireUser_some, hg, hgate]

theorem createStoryScene_err_frame (ctx : Option User)
    (inp : CreateStorySceneInput) (now : Nat) (newId : String) (db : DB)
    (h : isErr (createStoryScene ctx inp now newId db).2 = true) :
    (createStoryScene ctx inp now newId db).1 = db := by
  cases hc : createStorySceneCheck inp with
  | some e => simp [createStoryScene, hc]
  | none =>
    cases ctx with
    | none => simp [createStoryScene, hc, requireUser_none]
    | some u =>
      cases hg : getOwnedStory db inp.storyId u.id with
      | error e => simp [createStoryScene, hc, requireUser_some, hg]
      | ok s =>
        cases hgate : (if truthy inp.chapterId then
            (getOwnedChapter db (inp.chapterId.getD "") inp.storyId u.id).map fun _ => ()
          else (.ok () : Except Err Unit)) with
        | error e => simp [createStoryScene, hc, requireUser_some, hg, hgate]
        | ok v => simp [createStoryScene, hc, requireUser_some, hg, hgate, isErr] at h

theorem updateStoryScene_err_frame (ctx : Option User)
    (inp : UpdateStorySceneInput) (now : Nat) (db : DB)
    (h : isErr (updateStoryScene ctx inp now db).2 = true) :
    (updateStoryScene ctx inp now db).1 = db := by
  cases hc : updateStorySceneCheck inp with
  | some e => simp [updateStoryScene, hc]
  | none =>
    cases ctx with
    | none => simp [updateStoryScene, hc, requireUser_none]
    | some u =>
      cases hg : getOwnedScene db inp.id inp.storyId u.id with
      | error e => simp [updateStoryScene, hc, requireUser_some, hg]
      | ok x =>
        cases hgate : (if inp.chapterId.isSome then
            (getOwnedChapter db (inp.chapterId.getD "") inp.storyId u.id).map fun _ => ()
          else (.ok () : Except Err Unit)) with
        | error e => simp [updateStoryScene, hc, requireUser_some, hg, hgate]
        | ok v => simp [updateStoryScene, hc, requireUser_some, hg, hgate, isErr] at h

theorem deleteStoryScene_err_frame (ctx : Option User) (inp : DeleteInput)
    (db : DB) (h : isErr (deleteStoryScene ctx inp db).2 = true) :
    (deleteStoryScene ctx inp db).1 = db := by
  cases hc : deleteCheck inp with
  | some e => simp [deleteStoryScene, hc]
  | none =>
    cases ctx with
    | none => simp [deleteStoryScene, hc, requireUser_none]
    | some u =>
      cases hg : getOwnedScene db inp.id inp.storyId u.id with
      | error e => simp [deleteStoryScene, hc, requireUser_some, hg]
      | ok x => simp [deleteStoryScene, hc, requireUser_some, hg, isErr] at h

theorem listStoryScenes_db_frame (ctx : Option User)
    (inp : ListStoryScenesInput) (db : DB) :
    (listStoryScenes ctx inp db).1 = db := by
  cases hc : listStoryScenesCheck inp with
  | some e => simp [listStoryScenes, hc]
  | none =>
    cases ctx with
    | none => simp [listStoryScenes, hc, requireUser_none]
    | some u =>
      cases hg : getOwnedStory db inp.storyId u.id with
      | error e => simp [listStoryScenes, hc, requireUser_some, hg]
      | ok s =>
        cases hgate : (if truthy inp.chapterId then
            (getOwnedChapter db (inp.chapterId.getD "") inp.storyId u.id).map fun _ => ()
          else (.ok () : Except Err Unit)) with
        | error e => simp [listStoryScenes, hc, requireUser_some, hg, hgate]
        | ok v => simp [listStoryScenes, hc, requireUser_some, hg, hgate]

/-- C8: whenever any operation returns an error — whatever gate failed —
the datastore it returns is exactly the one it was given (no partial
write), and the four list operations never change the datastore at all.
Each mutating operation's success case performs its single datastore
statement, as captured by the success-shape lemmas. -/
theorem C8_failed_gates_no_write :
    (∀ (ctx : Option User) (inp : CreateStoryInput) (now : Nat) (newId : String)
        (db : DB), isErr (createStory ctx inp now newId db).2 = true →
      (createStory ctx inp now newId db).1 = db) ∧
    (∀ (ctx : Option User) (inp : UpdateStoryInput) (now : Nat) (db : DB),
      isErr (updateStory ctx inp now db).2 = true →
      (updateStory ctx inp now db).1 = db) ∧
    (∀ (ctx : Option User) (inp : CreateStoryActInput) (now : Nat) (newId : String)
        (db : DB), isErr (createStoryAct ctx inp now newId db).2 = true →
      (createStoryAct ctx inp now newId db).1 = db) ∧
    (∀ (ctx : Option User) (inp : UpdateStoryActInput) (db : DB),
      isErr (updateStoryAct ctx inp db).2 = true →
      (updateStoryAct ctx inp db).1 = db) ∧
    (∀ (ctx : Option User) (inp : DeleteInput) (db : DB),
      isErr (deleteStoryAct ctx inp db).2 = true →
      (deleteStoryAct ctx inp db).1 = db) ∧
    (∀ (ctx : Option User) (inp : CreateStoryChapterInput) (now : Nat)
        (newId : String) (db : DB),
      isErr (createStoryChapter ctx inp now newId db).2 = true →
      (createStoryChapter ctx inp now newId db).1 = db) ∧
    (∀ (ctx : Option User) (inp : UpdateStoryChapterInput) (now : Nat) (db : DB),
      isErr (updateStoryChapter ctx inp now db).2 = true →
      (updateStoryChapter ctx inp now db).1 = db) ∧
    (∀ (ctx : Option User) (inp : DeleteInput) (db : DB),
      isErr (deleteStoryChapter ctx inp db).2 = true →
      (deleteStoryChapter ctx inp db).1 = db) ∧
    (∀ (ctx : Option User) (inp : CreateStorySceneInput) (now : Nat)
        (newId : String) (db : DB),
      isErr (createStoryScene ctx inp now newId db).2 = true →
      (createStoryScene ctx inp now newId db).1 = db) ∧
    (∀ (ctx : Option User) (inp : UpdateStorySceneInput) (now : Nat) (db : DB),
      isErr (updateStoryScene ctx inp now db).2 = true →
      (updateStoryScene ctx inp now db).1 = db) ∧
    (∀ (ctx : Option User) (inp : DeleteInput) (db : DB),
      isErr (deleteStoryScene ctx inp db).2 = true →
      (deleteStoryScene ctx inp db).1 = db) ∧
    (∀ (ctx : Option User) (db : DB), (listStories ctx db).1 = db) ∧
    (∀ (ctx : Option User) (inp : ListStoryActsInput) (db : DB),
      (listStoryActs ctx inp db).1 = db) ∧
    (∀ (ctx : Option User) (inp : ListStoryChaptersInput) (db : DB),
      (listStoryChapters ctx inp db).1 = db) ∧
    (∀ (ctx : Option User) (inp : ListStoryScenesInput) (db : DB),
      (listStoryScenes ctx inp db).1 = db) :=
  ⟨createStory_err_frame, updateStory_err_frame, createStoryAct_err_frame,
   updateStoryAct_err_frame, deleteStoryAct_err_frame, createStoryChapter_err_frame,
   updateStoryChapter_err_frame, deleteStoryChapter_err_frame,
   createStoryScene_err_frame, updateStoryScene_err_frame, deleteStoryScene_err_frame,
   listStories_db_frame, listStoryActs_db_frame, listStoryChapters_db_frame,
   listStoryScenes_db_frame⟩

/-- Witness for C8: updateStoryAct against a story owned by another user
fails (ownership gate) and returns the datastore unchanged. -/
theorem C8_witness :
    (updateStoryAct (some ⟨"u1"⟩) ⟨"a1", "s1", some 2, none, none⟩ wDB).1 = wDB :=
  C8_failed_gates_no_write.2.2.2.1 (some ⟨"u1"⟩) ⟨"a1", "s1", some 2, none, none⟩
    wDB rfl

/-- C10: a successful deleteStoryAct removes exactly the act rows whose id
matches the input and leaves the story, chapter and scene tables untouched;
in particular every chapter row — including any whose actId references the
deleted act — survives verbatim, its actId now dangling. -/
theorem C10_delete_act_no_cascade :
    ∀ (ctx : Option User) (inp : DeleteInput) (db db' : DB) (v : Unit),
      deleteStoryAct ctx inp db = (db', .ok v) →
      db'.stories = db.stories ∧ db'.chapters = db.chapters ∧
      db'.scenes = db.scenes ∧
      db'.acts = db.acts.filter (fun a => a.id != inp.id) ∧
      ∀ c ∈ db.chapters, c ∈ db'.chapters := by
  intro ctx inp db db' v h
  have hdb := deleteStoryAct_ok_shape h
  subst hdb
  exact ⟨rfl, rfl, rfl, rfl, fun c hc => hc⟩

/-- Witness for C10: deleting act a1 from story s1 removes only the act row;
the chapter c1 that referenced a1 is still stored with its actId intact,
now dangling. -/
theorem C10_witness :
    ((⟨[gStory], [], [nChapter], []⟩ : DB).stories = nDB.stories ∧
     (⟨[gStory], [], [nChapter], []⟩ : DB).chapters = nDB.chapters ∧
     (⟨[gStory], [], [nChapter], []⟩ : DB).scenes = nDB.scenes ∧
     (⟨[gStory], [], [nChapter], []⟩ : DB).acts =
       nDB.acts.filter (fun a => a.id != "a1") ∧
     ∀ c ∈ nDB.chapters, c ∈ (⟨[gStory], [], [nChapter], []⟩ : DB).chapters) ∧
    nChapter.actId = some "a1" :=
  ⟨C10_delete_act_no_cascade (some ⟨"u1"⟩) ⟨"a1", "s1"⟩ nDB
      ⟨[gStory], [], [nChapter], []⟩ () rfl, rfl⟩

end StoryCrafter
